import Mathlib

/-!
Verification of the payment-processing core: the `SubmitTransfer` payout
orchestration (`app/payout/core/transfer/processors/submit_transfer.py`) and
the cart-payment intent repository (`app/payin/repository/cart_payment_repo.py`),
embedded shallowly as executable Lean definitions over explicit row-store
states.  Row tables are association lists in insertion order; a SQL
`UPDATE ... WHERE p` is a map over the table applying the column assignment to
every row satisfying `p`, and `fetch_one` of a `RETURNING` clause is the first
matching row.  Timestamps are abstract `Nat` ticks supplied by the caller.
-/

section ListUpdate

variable {α : Type _}

/-- Semantics of `UPDATE table SET f WHERE p`: apply `f` to every row satisfying `p`. -/
def listUpdate (p : α → Bool) (f : α → α) (l : List α) : List α :=
  l.map fun a => if p a then f a else a

end ListUpdate

/-! ## Payin: `CartPaymentRepository` (app/payin/repository/cart_payment_repo.py) -/

namespace Payin

/-- Values of `IntentStatus` relevant to the payment-intent lifecycle
(§3 of the spec: REQUIRES_CAPTURE, CAPTURING, SUCCEEDED, CANCELLED, FAILED,
plus the initial state). -/
inductive IntentStatus
  | init
  | requires_capture
  | capturing
  | succeeded
  | cancelled
  | failed
  deriving DecidableEq, Repr

/-- Row of the `payment_intents` table (columns touched by the modelled
operations, plus identity). -/
structure PaymentIntentRow where
  id : Nat
  status : IntentStatus
  amount : Int
  captured_at : Option Nat
  updated_at : Nat
  deriving DecidableEq, Repr

/-- Row of the `pgp_payment_intents` table. -/
structure PgpPaymentIntentRow where
  id : Nat
  payment_intent_id : Nat
  status : IntentStatus
  updated_at : Nat
  deriving DecidableEq, Repr

/-- Row of the `payment_intents_adjustment_history` table. -/
structure AdjustmentHistoryRow where
  id : Nat
  payer_id : Option Nat
  payment_intent_id : Nat
  amount : Int
  amount_original : Int
  amount_delta : Int
  currency : String
  idempotency_key : String
  created_at : Nat
  deriving DecidableEq, Repr

/-- The payin row store: the three tables the modelled operations touch,
in insertion order. -/
structure DB where
  payment_intents : List PaymentIntentRow
  pgp_payment_intents : List PgpPaymentIntentRow
  history : List AdjustmentHistoryRow
  deriving DecidableEq, Repr

/-- Errors surfaced by the repository operations.
`paymentIntentCouldNotBeUpdated` models `PaymentIntentCouldNotBeUpdatedError`;
`noneRowTypeError` models the `TypeError` CPython raises when
`to_payment_intent(row)` subscripts the `None` returned by `fetch_one` on an
update/select that matched no row; `valueError` models the `ValueError` raised
by `update_payment_and_pgp_payment_intent_status`. -/
inductive RepoError
  | paymentIntentCouldNotBeUpdated
  | noneRowTypeError
  | valueError
  deriving DecidableEq, Repr

/-- Embedding of `CartPaymentRepository.update_payment_intent_status` (lines 309-338):
`UPDATE payment_intents SET status, updated_at WHERE id = id AND
status = previous_status RETURNING *`; a `None` row (zero rows affected)
raises `PaymentIntentCouldNotBeUpdatedError`. -/
def update_payment_intent_status (db : DB) (id : Nat)
    (new_status previous_status : IntentStatus) (now : Nat) :
    DB × Except RepoError PaymentIntentRow :=
  let hit : PaymentIntentRow → Bool :=
    fun r => decide (r.id = id ∧ r.status = previous_status)
  let upd : PaymentIntentRow → PaymentIntentRow :=
    fun r => { r with status := new_status, updated_at := now }
  let db' := { db with payment_intents := listUpdate hit upd db.payment_intents }
  match db.payment_intents.find? hit with
  | some r => (db', .ok (upd r))
  | none => (db', .error .paymentIntentCouldNotBeUpdated)

/-- Embedding of `CartPaymentRepository.update_payment_intent_capture_state`
(lines 340-355): `UPDATE payment_intents SET status, captured_at, updated_at
WHERE id = id RETURNING *`; the row is materialized unconditionally, so a
missing id surfaces as the `None`-row `TypeError`, not
`PaymentIntentCouldNotBeUpdatedError`. -/
def update_payment_intent_capture_state (db : DB) (id : Nat)
    (status : IntentStatus) (captured_at : Nat) (now : Nat) :
    DB × Except RepoError PaymentIntentRow :=
  let hit : PaymentIntentRow → Bool := fun r => decide (r.id = id)
  let upd : PaymentIntentRow → PaymentIntentRow :=
    fun r => { r with status := status, captured_at := some captured_at,
                      updated_at := now }
  let db' := { db with payment_intents := listUpdate hit upd db.payment_intents }
  match db.payment_intents.find? hit with
  | some r => (db', .ok (upd r))
  | none => (db', .error .noneRowTypeError)

/-- Embedding of `CartPaymentRepository.update_payment_intent_amount` (lines 357-368). -/
def update_payment_intent_amount (db : DB) (id : Nat) (amount : Int)
    (now : Nat) : DB × Except RepoError PaymentIntentRow :=
  let hit : PaymentIntentRow → Bool := fun r => decide (r.id = id)
  let upd : PaymentIntentRow → PaymentIntentRow :=
    fun r => { r with amount := amount, updated_at := now }
  let db' := { db with payment_intents := listUpdate hit upd db.payment_intents }
  match db.payment_intents.find? hit with
  | some r => (db', .ok (upd r))
  | none => (db', .error .noneRowTypeError)

/-- Embedding of `CartPaymentRepository.get_payment_intent_by_id` (lines 516-519). -/
def get_payment_intent_by_id (db : DB) (id : Nat) : Option PaymentIntentRow :=
  db.payment_intents.find? fun r => decide (r.id = id)

/-- Embedding of `CartPaymentRepository.get_payment_intent_adjustment_history`
(lines 406-421): select the first history row matching
`(payment_intent_id, idempotency_key)`. -/
def get_payment_intent_adjustment_history (db : DB) (payment_intent_id : Nat)
    (idempotency_key : String) : Option AdjustmentHistoryRow :=
  db.history.find? fun h =>
    decide (h.payment_intent_id = payment_intent_id ∧
            h.idempotency_key = idempotency_key)

/-- Embedding of `CartPaymentRepository.insert_payment_intent_adjustment_history`
(lines 636-665): append the row and return it. -/
def insert_payment_intent_adjustment_history (db : DB) (id : Nat)
    (payer_id : Option Nat) (payment_intent_id : Nat) (amount : Int)
    (amount_original : Int) (amount_delta : Int) (currency : String)
    (idempotency_key : String) (now : Nat) :
    DB × AdjustmentHistoryRow :=
  let row : AdjustmentHistoryRow :=
    { id := id, payer_id := payer_id, payment_intent_id := payment_intent_id,
      amount := amount, amount_original := amount_original,
      amount_delta := amount_delta, currency := currency,
      idempotency_key := idempotency_key, created_at := now }
  ({ db with history := db.history ++ [row] }, row)

/-- Embedding of `CartPaymentRepository.update_payment_and_pgp_payment_intent_status`
(lines 536-576): inside one transactional scope, update the
`pgp_payment_intents` row first (`WHERE id AND payment_intent_id`); if no row
matched return `None`; otherwise update the `payment_intents` row
(`WHERE id`), raising `ValueError` when that matches nothing.  The
`async with payment_database_transaction()` scope is modelled by returning the
entry state on the raising path (rollback) and the written state otherwise. -/
def update_payment_and_pgp_payment_intent_status (db : DB)
    (new_status : IntentStatus) (payment_intent_id pgp_payment_intent_id : Nat)
    (now : Nat) :
    DB × Except RepoError (Option (PaymentIntentRow × PgpPaymentIntentRow)) :=
  let pgpHit : PgpPaymentIntentRow → Bool :=
    fun r => decide (r.id = pgp_payment_intent_id ∧
                     r.payment_intent_id = payment_intent_id)
  let pgpUpd : PgpPaymentIntentRow → PgpPaymentIntentRow :=
    fun r => { r with status := new_status, updated_at := now }
  let db1 := { db with
    pgp_payment_intents := listUpdate pgpHit pgpUpd db.pgp_payment_intents }
  match db.pgp_payment_intents.find? pgpHit with
  | none => (db1, .ok none)
  | some pr =>
    let piHit : PaymentIntentRow → Bool :=
      fun r => decide (r.id = payment_intent_id)
    let piUpd : PaymentIntentRow → PaymentIntentRow :=
      fun r => { r with status := new_status, updated_at := now }
    let db2 := { db1 with
      payment_intents := listUpdate piHit piUpd db1.payment_intents }
    match db.payment_intents.find? piHit with
    | none => (db, .error .valueError)
    | some r => (db2, .ok (some (piUpd r, pgpUpd pr)))

/-- Modelled from the spec: the adjustment operation of §4.2 — "given
`(payment_intent_id, amount_delta, idempotency_key)`, look up any existing
adjustment row for that idempotency key first (idempotent replay); if absent,
atomically update the PaymentIntent's `amount` and insert the adjustment
history row."  The processor composing the sampled repository calls
(`get_payment_intent_adjustment_history`, `update_payment_intent_amount`,
`insert_payment_intent_adjustment_history`) is not among the sampled source
files. -/
def adjust_payment_intent_amount (db : DB) (payment_intent_id : Nat)
    (amount_delta : Int) (idempotency_key : String) (new_id : Nat)
    (payer_id : Option Nat) (currency : String) (now : Nat) :
    DB × Except RepoError AdjustmentHistoryRow :=
  match get_payment_intent_adjustment_history db payment_intent_id
      idempotency_key with
  | some h => (db, .ok h)
  | none =>
    match get_payment_intent_by_id db payment_intent_id with
    | none => (db, .error .noneRowTypeError)
    | some intent =>
      let new_amount := intent.amount + amount_delta
      let db1 := (update_payment_intent_amount db payment_intent_id
        new_amount now).1
      let res := insert_payment_intent_adjustment_history db1 new_id
        payer_id payment_intent_id new_amount intent.amount amount_delta
        currency idempotency_key now
      (res.1, .ok res.2)

end Payin

/-! ## Payout: `SubmitTransfer` (app/payout/core/transfer/processors/submit_transfer.py) -/

namespace Payout

/-! String constants of `TransferMethodType`.  Modelled from the spec
(`app/payout/types.py` is not among the sampled source files); only identity
of the values matters. -/
namespace TransferMethodType

def STRIPE : String := "stripe"

def DOORDASH_PAY : String := "doordash_pay"

def COD_INVOICE : String := "cod_invoice"

end TransferMethodType

/-- Modelled from the spec (§4.1 step 7): the recognized transfer methods
backing `TRANSFER_METHOD_CHOICES` (`app/payout/types.py` is not among the
sampled source files). -/
def TRANSFER_METHOD_CHOICES : List String :=
  [TransferMethodType.STRIPE, TransferMethodType.DOORDASH_PAY,
   TransferMethodType.COD_INVOICE]

/-! String constants of `StripeErrorCode`.  Modelled from the spec
(`app/payout/types.py` is not among the sampled source files); only identity
and distinctness of the values matter. -/
namespace StripeErrorCode

def NO_EXT_ACCOUNT_IN_CURRENCY : String := "no_ext_account_in_currency"

def PAYOUT_NOT_ALLOWED : String := "payout_not_allowed"

def INVALID_REQUEST_ERROR : String := "invalid_request_error"

end StripeErrorCode

/-- Fallback failure-code string returned by
`extract_failure_code_from_exception_message`. -/
def UNKNOWN_ERROR_STR : String := "unknown_error"

/-- Constant of `AccountType.ACCOUNT_TYPE_STRIPE_MANAGED_ACCOUNT`. -/
def ACCOUNT_TYPE_STRIPE_MANAGED_ACCOUNT : String := "stripe_managed_account"

/-- Constant of `PayoutAccountTargetType.DASHER`. -/
def DASHER : String := "dasher"

/-- Constant of `ManagedAccountTransferStatus.PAID.value`. -/
def MANAGED_ACCOUNT_TRANSFER_STATUS_PAID : String := "paid"

/-- Constant of `STRIPE_TRANSFER_FAILED_STATUS`. -/
def STRIPE_TRANSFER_FAILED_STATUS : String := "failed"

/-- Values of `TransferStatusType` (§3: NEW, PENDING, PAID, FAILED, ERROR). -/
inductive TransferStatusType
  | new
  | pending
  | paid
  | failed
  | error
  deriving DecidableEq, Repr

/-- Codes of `PayoutErrorCode` raised by `SubmitTransfer`. -/
inductive PayoutErrorCode
  | transfer_not_found
  | invalid_payment_account_id
  | mismatched_transfer_amount
  | transfer_invalid_state
  | transfer_already_deleted
  | duplicate_transfer
  | transfer_disabled_error
  | transfer_processing
  | invalid_stripe_account_id
  | invalid_stripe_account
  | mismatched_transfer_payment_account
  | dummy_transfer_creation_failed
  | duplicate_stripe_transfer
  | unsupported_country
  | stripe_payout_acct_missing
  | stripe_payout_disallowed
  | stripe_invalid_request_error
  | stripe_submission_error
  deriving DecidableEq, Repr

/-- Values stored in `transfer.status_code`: the `TransferStatusCodeType`
constants, or (on the FAILED path of `submit_stripe_transfer`, line 514) a
`PayoutErrorCode` written directly into the column. -/
inductive TransferStatusCodeType
  | error_amount_mismatch
  | error_invalid_state
  | error_no_gateway_account
  | error_account_id_mismatch
  | error_submission
  | unknown_error
  | of_payout_error_code (c : PayoutErrorCode)
  deriving DecidableEq, Repr

/-- Structured payload of a gateway `StripeError`: `e.json_body["error"]`
fields `type`/`code`/`message` plus `e.request_id` (§6 call contract). -/
structure StripeErrorDetail where
  error_type : Option String
  code : Option String
  message : Option String
  request_id : Option String
  deriving DecidableEq, Repr

/-- Exceptions crossing the embedded operations: `PayoutError`,
gateway `StripeError`, a failed `assert`, and any other exception. -/
inductive Exc
  | payoutError (code : PayoutErrorCode) (retryable : Bool)
      (message : Option String)
  | stripeError (e : StripeErrorDetail)
  | assertionError (msg : String)
  | generic (msg : String)
  deriving DecidableEq, Repr

/-- Discriminator for the `except PayoutError` clauses. -/
def Exc.isPayoutError : Exc → Bool
  | .payoutError _ _ _ => true
  | _ => false

/-- Row of the `transfer` table (§3). -/
structure Transfer where
  id : Nat
  payment_account_id : Option Nat
  amount : Int
  currency : Option String
  status : TransferStatusType
  status_code : Option TransferStatusCodeType
  submitted_at : Option Nat
  deleted_at : Option Nat
  method : Option String
  submitted_by_id : Option Nat
  should_retry_on_failure : Bool
  deriving DecidableEq, Repr

/-- Fields settable through `TransferUpdate`; an outer `none` means the field
is not part of the update, and for nullable columns the inner `Option` is the
value written (the source passes explicit `None` for `status_code`,
`method` and `submitted_by_id`). -/
structure TransferUpdate where
  status : Option TransferStatusType := none
  status_code : Option (Option TransferStatusCodeType) := none
  currency : Option (Option String) := none
  method : Option (Option String) := none
  submitted_at : Option Nat := none
  submitted_by_id : Option (Option Nat) := none
  should_retry_on_failure : Option Bool := none
  deriving DecidableEq, Repr

/-- Column assignment of a `TransferUpdate`. -/
def TransferUpdate.apply (u : TransferUpdate) (t : Transfer) : Transfer :=
  { t with
    status := u.status.getD t.status
    status_code := u.status_code.getD t.status_code
    currency := u.currency.getD t.currency
    method := u.method.getD t.method
    submitted_at := match u.submitted_at with
      | some v => some v
      | none => t.submitted_at
    submitted_by_id := u.submitted_by_id.getD t.submitted_by_id
    should_retry_on_failure := u.should_retry_on_failure.getD
      t.should_retry_on_failure }

/-- Values of `StripeTransferSubmissionStatus`. -/
inductive StripeTransferSubmissionStatus
  | submitting
  | submitted
  | failed_to_submit
  deriving DecidableEq, Repr

/-- Row of the `stripe_transfer` table (gateway submission record, §3). -/
structure StripeTransfer where
  id : Nat
  transfer_id : Nat
  submission_status : StripeTransferSubmissionStatus
  stripe_status : String
  stripe_id : Option String
  stripe_request_id : Option String
  submission_error_type : Option String
  submission_error_code : Option String
  stripe_account_id : Option String
  stripe_account_type : Option String
  country_shortname : Option String
  bank_name : Option String
  bank_last_four : Option String
  submitted_at : Option Nat
  deriving DecidableEq, Repr

/-- Fields of `StripeTransferCreate` used by the source. -/
structure StripeTransferCreate where
  transfer_id : Nat
  submission_status : StripeTransferSubmissionStatus
  stripe_status : String
  deriving DecidableEq, Repr

/-- Fields settable through `StripeTransferUpdate` (outer `none` = not part of
the update; nullable columns take an inner `Option`). -/
structure StripeTransferUpdate where
  country_shortname : Option (Option String) := none
  stripe_account_id : Option String := none
  stripe_account_type : Option String := none
  stripe_status : Option String := none
  stripe_id : Option String := none
  bank_name : Option (Option String) := none
  bank_last_four : Option (Option String) := none
  submission_status : Option StripeTransferSubmissionStatus := none
  submitted_at : Option Nat := none
  stripe_request_id : Option (Option String) := none
  submission_error_type : Option (Option String) := none
  submission_error_code : Option String := none
  deriving DecidableEq, Repr

/-- Column assignment of a `StripeTransferUpdate`. -/
def StripeTransferUpdate.apply (u : StripeTransferUpdate) (r : StripeTransfer) :
    StripeTransfer :=
  { r with
    country_shortname := u.country_shortname.getD r.country_shortname
    stripe_account_id := match u.stripe_account_id with
      | some v => some v
      | none => r.stripe_account_id
    stripe_account_type := match u.stripe_account_type with
      | some v => some v
      | none => r.stripe_account_type
    stripe_status := u.stripe_status.getD r.stripe_status
    stripe_id := match u.stripe_id with
      | some v => some v
      | none => r.stripe_id
    bank_name := u.bank_name.getD r.bank_name
    bank_last_four := u.bank_last_four.getD r.bank_last_four
    submission_status := u.submission_status.getD r.submission_status
    submitted_at := match u.submitted_at with
      | some v => some v
      | none => r.submitted_at
    stripe_request_id := u.stripe_request_id.getD r.stripe_request_id
    submission_error_type := u.submission_error_type.getD
      r.submission_error_type
    submission_error_code := match u.submission_error_code with
      | some v => some v
      | none => r.submission_error_code }

/-- Row of the `managed_account_transfer` table (§3). -/
structure ManagedAccountTransfer where
  id : Nat
  transfer_id : Nat
  payment_account_id : Option Nat
  amount : Int
  currency : Option String
  stripe_id : Option String
  stripe_status : Option String
  submitted_at : Option Nat
  deriving DecidableEq, Repr

/-- Fields of `ManagedAccountTransferCreate` used by the source. -/
structure ManagedAccountTransferCreate where
  amount : Int
  transfer_id : Nat
  payment_account_id : Nat
  currency : Option String
  deriving DecidableEq, Repr

/-- Fields settable through `ManagedAccountTransferUpdate`. -/
structure ManagedAccountTransferUpdate where
  amount : Option Int := none
  stripe_id : Option String := none
  stripe_status : Option String := none
  submitted_at : Option Nat := none
  deriving DecidableEq, Repr

/-- Column assignment of a `ManagedAccountTransferUpdate`. -/
def ManagedAccountTransferUpdate.apply (u : ManagedAccountTransferUpdate)
    (m : ManagedAccountTransfer) : ManagedAccountTransfer :=
  { m with
    amount := u.amount.getD m.amount
    stripe_id := match u.stripe_id with
      | some v => some v
      | none => m.stripe_id
    stripe_status := match u.stripe_status with
      | some v => some v
      | none => m.stripe_status
    submitted_at := match u.submitted_at with
      | some v => some v
      | none => m.submitted_at }

/-- Row of the `payment_account` table (§3). -/
structure PaymentAccount where
  id : Nat
  account_id : Option Nat
  account_type : Option String
  entity : Option String
  transfers_enabled : Bool
  deriving DecidableEq, Repr

/-- Row of the stripe-managed-account table referenced by
`payment_account.account_id`. -/
structure StripeManagedAccount where
  id : Nat
  stripe_id : String
  deriving DecidableEq, Repr

/-- Gateway bank-account payload attached to a payout
(`payout_of_stripe.bank_account`, may be absent). -/
structure GatewayBankAccount where
  bank_name : Option String
  last4 : Option String
  deriving DecidableEq, Repr

/-- Gateway payout object: `createPayout -> {id, status, bankAccount?}`
(§6 call contract). -/
structure GatewayPayout where
  id : String
  status : String
  bank_account : Option GatewayBankAccount
  deriving DecidableEq, Repr

/-- Gateway transfer object: `createTransfer -> {id}` (§6 call contract). -/
structure GatewayTransfer where
  id : String
  deriving DecidableEq, Repr

/-- Metadata dict built by `get_stripe_transfer_metadata` (lines 833-851). -/
structure TransferMetadata where
  transfer_id : Nat
  account_id : Nat
  target_type : Option String
  target_id : Option Int
  deriving DecidableEq, Repr

/-- Record of one outbound gateway call, for stating "no gateway call made". -/
inductive GatewayCall
  | create_payout (amount : Int) (currency : String) (country : String)
      (stripe_account : String) (statement_descriptor : String)
      (metadata : TransferMetadata)
  | create_transfer (amount : Int) (currency : Option String)
      (destination : String) (country : Option String)
  deriving DecidableEq, Repr

/-- The payout row store plus the gateway call log.  Tables are kept in
insertion order; `next_*_id` model server-assigned primary keys. -/
structure St where
  transfers : List Transfer
  payment_accounts : List PaymentAccount
  stripe_managed_accounts : List StripeManagedAccount
  stripe_transfers : List StripeTransfer
  managed_account_transfers : List ManagedAccountTransfer
  next_stripe_transfer_id : Nat
  next_managed_account_transfer_id : Nat
  gateway_calls : List GatewayCall
  deriving DecidableEq, Repr

/-- External collaborators of one `submit` call, fixed per call: the clock,
the gateway client results (§6 contract: `createPayout`, `createTransfer`,
`getAccountBalance`), and the account-utility lookups
(`get_country_shortname`, `get_currency_code`, `get_account_balance` live in
`app/payout/core/account/utils.py`, which is not among the sampled source
files; they are modelled from the spec as environment-supplied values).
`failed_status_codes` is membership in `TRANSFER_ERROR_TYPE_TO_FAILED_STATUS`
(§4.1 step 14: "if its code maps to a 'failed' category"; the table lives in
`app/payout/types.py`, not among the sampled source files). -/
structure Env where
  now : Nat
  account_balance : Option StripeManagedAccount → Int
  country_shortname : Option String
  currency_code : String → String
  create_payout_result : Except Exc GatewayPayout
  create_transfer_result : Except Exc GatewayTransfer
  failed_status_codes : PayoutErrorCode → Bool

/-- State-and-exception monad of the embedded processor: each operation maps
a store to a result (`ok` or a raised exception) and the store after it;
exceptions do not undo prior writes. -/
structure PM (α : Type) where
  run : St → Except Exc α × St

/-- Monadic return. -/
def PM.pure (a : α) : PM α := ⟨fun s => (.ok a, s)⟩

/-- Sequencing; an exception short-circuits but keeps the written state. -/
def PM.bind (x : PM α) (f : α → PM β) : PM β :=
  ⟨fun s =>
    match x.run s with
    | (.ok a, s1) => (f a).run s1
    | (.error e, s1) => (.error e, s1)⟩

instance : Monad PM where
  pure := PM.pure
  bind := PM.bind

/-- Embedding of `raise`. -/
def PM.throw (e : Exc) : PM α := ⟨fun s => (.error e, s)⟩

/-- Embedding of `try/except`: run the handler on the state at the point the
exception was raised. -/
def PM.tryCatchExc (x : PM α) (h : Exc → PM α) : PM α :=
  ⟨fun s =>
    match x.run s with
    | (.error e, s1) => (h e).run s1
    | r => r⟩

/-- A read-only query of the store. -/
def PM.read (f : St → α) : PM α := ⟨fun s => (.ok (f s), s)⟩

/-- Lifting of a pure `Except` computation. -/
def PM.ofExcept (x : Except Exc α) : PM α := ⟨fun s => (x, s)⟩

/-! ### Repository layer

Modelled from the spec (§6, row-store contract): "point lookup and
conditional update by primary key/status for each entity in §3; all updates
return the post-update row or a not-found signal; inserts return the created
row with server-assigned timestamps."  The repository implementations
(`app/payout/repository/maindb/*`) are not among the sampled source files. -/

/-- Modelled from the spec: `TransferRepository.get_transfer_by_id`. -/
def get_transfer_by_id (transfer_id : Nat) : PM (Option Transfer) :=
  PM.read fun s => s.transfers.find? fun t => decide (t.id = transfer_id)

/-- Modelled from the spec: `TransferRepository.update_transfer_by_id` —
apply the update to the row keyed by `transfer_id`, returning the post-update
row or `none`. -/
def update_transfer_by_id (transfer_id : Nat) (data : TransferUpdate) :
    PM (Option Transfer) :=
  ⟨fun s =>
    let hit : Transfer → Bool := fun t => decide (t.id = transfer_id)
    (.ok ((s.transfers.find? hit).map data.apply),
     { s with transfers := listUpdate hit data.apply s.transfers })⟩

/-- Modelled from the spec:
`PaymentAccountRepository.get_payment_account_by_id`. -/
def get_payment_account_by_id (payment_account_id : Nat) :
    PM (Option PaymentAccount) :=
  PM.read fun s =>
    s.payment_accounts.find? fun a => decide (a.id = payment_account_id)

/-- Modelled from the spec:
`PaymentAccountRepository.get_stripe_managed_account_by_id`. -/
def get_stripe_managed_account_by_id (id : Nat) :
    PM (Option StripeManagedAccount) :=
  PM.read fun s =>
    s.stripe_managed_accounts.find? fun a => decide (a.id = id)

/-- Modelled from the spec: `StripeTransferRepository.create_stripe_transfer`
— insert a gateway submission record with a server-assigned id, the remaining
columns null. -/
def create_stripe_transfer (data : StripeTransferCreate) : PM StripeTransfer :=
  ⟨fun s =>
    let row : StripeTransfer :=
      { id := s.next_stripe_transfer_id
        transfer_id := data.transfer_id
        submission_status := data.submission_status
        stripe_status := data.stripe_status
        stripe_id := none, stripe_request_id := none
        submission_error_type := none, submission_error_code := none
        stripe_account_id := none, stripe_account_type := none
        country_shortname := none, bank_name := none, bank_last_four := none
        submitted_at := none }
    (.ok row,
     { s with stripe_transfers := s.stripe_transfers ++ [row]
              next_stripe_transfer_id := s.next_stripe_transfer_id + 1 })⟩

/-- Modelled from the spec:
`StripeTransferRepository.get_latest_stripe_transfer_by_transfer_id` — the
most recently inserted submission record for the transfer. -/
def get_latest_stripe_transfer_by_transfer_id (transfer_id : Nat) :
    PM (Option StripeTransfer) :=
  PM.read fun s =>
    (s.stripe_transfers.filter fun r => decide (r.transfer_id = transfer_id)
      ).getLast?

/-- Modelled from the spec (§4.1 step 9):
`StripeTransferRepository.get_all_ongoing_stripe_transfers_by_transfer_id` —
the SUBMITTING (in-flight) submission records for the transfer. -/
def get_all_ongoing_stripe_transfers_by_transfer_id (transfer_id : Nat) :
    PM (List StripeTransfer) :=
  PM.read fun s =>
    s.stripe_transfers.filter fun r =>
      decide (r.transfer_id = transfer_id ∧
              r.submission_status = .submitting)

/-- Modelled from the spec:
`StripeTransferRepository.update_stripe_transfer_by_id`. -/
def update_stripe_transfer_by_id (stripe_transfer_id : Nat)
    (data : StripeTransferUpdate) : PM (Option StripeTransfer) :=
  ⟨fun s =>
    let hit : StripeTransfer → Bool :=
      fun r => decide (r.id = stripe_transfer_id)
    (.ok ((s.stripe_transfers.find? hit).map data.apply),
     { s with stripe_transfers := listUpdate hit data.apply s.stripe_transfers })⟩

/-- Modelled from the spec:
`ManagedAccountTransferRepository.get_managed_account_transfer_by_transfer_id`. -/
def get_managed_account_transfer_by_transfer_id (transfer_id : Nat) :
    PM (Option ManagedAccountTransfer) :=
  PM.read fun s =>
    s.managed_account_transfers.find? fun m =>
      decide (m.transfer_id = transfer_id)

/-- Modelled from the spec:
`ManagedAccountTransferRepository.create_managed_account_transfer`. -/
def create_managed_account_transfer (data : ManagedAccountTransferCreate) :
    PM ManagedAccountTransfer :=
  ⟨fun s =>
    let row : ManagedAccountTransfer :=
      { id := s.next_managed_account_transfer_id
        transfer_id := data.transfer_id
        payment_account_id := some data.payment_account_id
        amount := data.amount
        currency := data.currency
        stripe_id := none, stripe_status := none, submitted_at := none }
    (.ok row,
     { s with
        managed_account_transfers := s.managed_account_transfers ++ [row]
        next_managed_account_transfer_id :=
          s.next_managed_account_transfer_id + 1 })⟩

/-- Modelled from the spec:
`ManagedAccountTransferRepository.update_managed_account_transfer_by_id`. -/
def update_managed_account_transfer_by_id
    (managed_account_transfer_id : Nat)
    (data : ManagedAccountTransferUpdate) :
    PM (Option ManagedAccountTransfer) :=
  ⟨fun s =>
    let hit : ManagedAccountTransfer → Bool :=
      fun m => decide (m.id = managed_account_transfer_id)
    (.ok ((s.managed_account_transfers.find? hit).map data.apply),
     { s with managed_account_transfers :=
        listUpdate hit data.apply s.managed_account_transfers })⟩

/-- Modelled from the spec (§6): `stripe.create_payout` — record the call,
then return the environment's verdict (a payout object, or a raised
`StripeError`/other exception). -/
def stripe_create_payout (env : Env) (amount : Int) (currency : String)
    (country : String) (stripe_account : String)
    (statement_descriptor : String) (metadata : TransferMetadata) :
    PM GatewayPayout :=
  ⟨fun s =>
    (env.create_payout_result,
     { s with gateway_calls := s.gateway_calls ++
        [.create_payout amount currency country stripe_account
          statement_descriptor metadata] })⟩

/-- Modelled from the spec (§6): `stripe.create_transfer`. -/
def stripe_create_transfer (env : Env) (amount : Int)
    (currency : Option String) (destination : String)
    (country : Option String) : PM GatewayTransfer :=
  ⟨fun s =>
    (env.create_transfer_result,
     { s with gateway_calls := s.gateway_calls ++
        [.create_transfer amount currency destination country] })⟩

/-! ### Python truthiness helpers -/

/-- Truthiness of an `Optional[int]`: `None` and `0` are falsy. -/
def truthyNat : Option Nat → Bool
  | some n => decide (n ≠ 0)
  | none => false

/-- Truthiness of an `Optional[str]`: `None` and `""` are falsy. -/
def truthyStr : Option String → Bool
  | some s => decide (s ≠ "")
  | none => false

/-- Embedding of Python `a or b` on optional strings (line 197:
`self.request.method or transfer.method`). -/
def pyOrStr (a b : Option String) : Option String :=
  if truthyStr a then a else b

/-- Truthiness of the coroutine object produced at line 198, where
`self.get_latest_transfer_submission(...)` is called without `await`: a
coroutine object is always truthy, so the right operand of the `or` is
unconditionally `True` and the repository query never runs. -/
def unawaited_coroutine_truthy : Bool := true

/-- Fields of `SubmitTransferRequest` (lines 73-80). -/
structure SubmitTransferRequest where
  transfer_id : Nat
  statement_descriptor : String
  target_id : Option String := none
  target_type : Option String := none
  method : Option String := some TransferMethodType.STRIPE
  retry : Bool := false
  submitted_by : Option Nat := none
  deriving DecidableEq, Repr

/-- Constituent transaction of a transfer (`TransactionDBEntity`); only the
`amount` field is read by `_execute`. -/
structure TransactionDBEntity where
  amount : Int
  deriving DecidableEq, Repr

/-! ### `SubmitTransfer` methods -/

/-- Embedding of `SubmitTransfer.handle_dummy_transfer` (lines 263-287):
mark the transfer PAID with `submitted_at` set and `status_code` cleared;
any exception is converted to `DUMMY_TRANSFER_CREATION_FAILED`. -/
def handle_dummy_transfer (env : Env) (transfer_id : Nat)
    (method : Option String) : PM Bool :=
  PM.tryCatchExc
    (do
      let _ ← update_transfer_by_id transfer_id
        { method := some method
          submitted_at := some env.now
          status := some .paid
          status_code := some none }
      pure true)
    (fun _ => PM.throw (.payoutError .dummy_transfer_creation_failed false
      (some "Failed to create dummy transfer")))

/-- Embedding of `SubmitTransfer.get_latest_transfer_submission`
(lines 289-296). -/
def get_latest_transfer_submission (transfer_id : Nat)
    (method : Option String) : PM (Option StripeTransfer) :=
  if method = some TransferMethodType.STRIPE then
    get_latest_stripe_transfer_by_transfer_id transfer_id
  else
    pure none

/-- Embedding of `SubmitTransfer.is_processing_or_processed_for_method`
(lines 298-312); `PayoutMethodType.STRIPE` carries the same string value as
`TransferMethodType.STRIPE`. -/
def is_processing_or_processed_for_method (transfer_id : Nat)
    (method : Option String) : PM Bool :=
  if method = some TransferMethodType.STRIPE then do
    let stripe_transfers ←
      get_all_ongoing_stripe_transfers_by_transfer_id transfer_id
    pure (stripe_transfers.length > 0)
  else
    pure false

/-- Embedding of `SubmitTransfer.has_stripe_managed_account` (lines 314-340):
require a linked stripe managed account, else mark the transfer
FAILED/`ERROR_NO_GATEWAY_ACCOUNT` and raise `INVALID_STRIPE_ACCOUNT_ID`. -/
def has_stripe_managed_account (payment_account : PaymentAccount)
    (transfer_id : Nat) : PM Bool := do
  let found ←
    if truthyNat payment_account.account_id then
      get_stripe_managed_account_by_id (payment_account.account_id.getD 0)
    else
      pure none
  if found.isSome then
    pure true
  else do
    let _ ← update_transfer_by_id transfer_id
      { status := some .failed
        status_code := some (some .error_no_gateway_account) }
    PM.throw (.payoutError .invalid_stripe_account_id false none)

/-- Embedding of
`SubmitTransfer.validate_payment_account_of_managed_account_transfer`
(lines 419-447). -/
def validate_payment_account_of_managed_account_transfer
    (payment_account : PaymentAccount) (transfer_id : Nat)
    (managed_account_transfer : Option ManagedAccountTransfer) : PM Bool := do
  match managed_account_transfer with
  | some mat =>
    if truthyNat mat.payment_account_id then
      if payment_account.id ≠ mat.payment_account_id.getD 0 then do
        let _ ← update_transfer_by_id transfer_id
          { status := some .error
            status_code := some (some .error_account_id_mismatch) }
        PM.throw (.payoutError .mismatched_transfer_payment_account false
          (some "payment account of managed account transfer mismatched"))
      else
        pure true
    else
      pure true
  | none => pure true

/-- Reconciliation half of `SubmitTransfer.managed_account_balance_check`
(lines 366-417), split out with the computed `amount_still_needed` as a
parameter: validate any existing managed-account transfer against the
payment account, then update/create it. -/
def managed_account_balance_check_reconcile (env : Env)
    (payment_account : PaymentAccount) (transfer_id : Nat)
    (amount_still_needed : Int) : PM Unit := do
  let managed_account_transfer ←
    get_managed_account_transfer_by_transfer_id transfer_id
  let _ ← validate_payment_account_of_managed_account_transfer
    payment_account transfer_id managed_account_transfer
  if amount_still_needed > 0 then
    match managed_account_transfer with
    | some mat =>
      if mat.amount < amount_still_needed then do
        let _ ← update_managed_account_transfer_by_id mat.id
          { amount := some amount_still_needed }
        pure ()
      else
        pure ()
    | none => do
      let country_shortname := env.country_shortname
      let _ ← create_managed_account_transfer
        { amount := amount_still_needed
          transfer_id := transfer_id
          payment_account_id := payment_account.id
          currency :=
            if truthyStr country_shortname then
              some (env.currency_code (country_shortname.getD ""))
            else
              none }
      pure ()
  else
    match managed_account_transfer with
    | some mat => do
      let _ ← update_managed_account_transfer_by_id mat.id
        { amount := some 0 }
      pure ()
    | none => pure ()

/-- Embedding of `SubmitTransfer.managed_account_balance_check`
(lines 342-417): compute the still-needed amount (full amount for dasher
entities, otherwise amount minus gateway balance), then validate and
update/create the managed-account transfer. -/
def managed_account_balance_check (env : Env)
    (payment_account : PaymentAccount) (transfer_id : Nat) (amount : Int) :
    PM Unit := do
  let amount_still_needed ←
    if payment_account.entity = some DASHER then
      pure amount
    else do
      let stripe_managed_account ←
        if truthyNat payment_account.account_id then
          get_stripe_managed_account_by_id (payment_account.account_id.getD 0)
        else
          pure none
      let account_balance := env.account_balance stripe_managed_account
      pure (amount - account_balance)
  managed_account_balance_check_reconcile env payment_account transfer_id
    amount_still_needed

/-- Embedding of `SubmitTransfer.get_stripe_account_id` (lines 704-720). -/
def get_stripe_account_id (payment_account : PaymentAccount) : PM String := do
  let found ←
    if truthyNat payment_account.account_id then
      get_stripe_managed_account_by_id (payment_account.account_id.getD 0)
    else
      pure none
  match found with
  | some sma => pure sma.stripe_id
  | none => PM.throw (.payoutError .invalid_stripe_account false none)

/-- Embedding of `SubmitTransfer.get_stripe_transfer_metadata`
(lines 833-851); `int(target_id)` raising `ValueError` on a non-numeric
string is modelled through `String.toInt?`. -/
def get_stripe_transfer_metadata (transfer_id : Nat)
    (payment_account : PaymentAccount) (target_type : Option String)
    (target_id : Option String) : Except Exc TransferMetadata :=
  let tt := if truthyStr target_type then target_type else none
  match (if truthyStr target_id then target_id else none) with
  | some sid =>
    match sid.toInt? with
    | some n =>
      .ok { transfer_id := transfer_id, account_id := payment_account.id,
            target_type := tt, target_id := some n }
    | none => .error (.generic "ValueError: invalid literal for int")
  | none =>
    .ok { transfer_id := transfer_id, account_id := payment_account.id,
          target_type := tt, target_id := none }

/-- Word character of the regex `\w` (ASCII view). -/
def isWordChar (c : Char) : Bool := c.isAlphanum || c = '_'

/-- Scanner for the tail `\w*\)` of the regex: consume word characters, then
require a closing parenthesis. -/
def scanWordThenParen : List Char → Bool
  | [] => false
  | c :: rest => if isWordChar c then scanWordThenParen rest else c = ')'

/-- Character-by-character matcher: consume the literal pattern prefix, then
require `\w+\)` (one word character, then `scanWordThenParen`). -/
def matchRestAfterLiteral : List Char → List Char → Bool
  | [], c :: rest => isWordChar c && scanWordThenParen rest
  | [], [] => false
  | _ :: _, [] => false
  | p :: ps, c :: cs => p == c && matchRestAfterLiteral ps cs

/-- Matcher for the single pattern of `TRANSFER_RELATED_ERROR_MESSAGES`
anchored at the start of the message (Python `re.match`):
the literal prefix followed by `\w+\)`. -/
def matchesNoExtAccountMessage (message : String) : Bool :=
  matchRestAfterLiteral
    "Sorry, you don\x27t have any external accounts in that currency (".toList
    message.toList

/-- Embedding of
`SubmitTransfer.extract_failure_code_from_exception_message`
(lines 853-873). -/
def extract_failure_code_from_exception_message (message : Option String) :
    String :=
  match message with
  | some msg =>
    if matchesNoExtAccountMessage msg then
      StripeErrorCode.NO_EXT_ACCOUNT_IN_CURRENCY
    else
      UNKNOWN_ERROR_STR
  | none => UNKNOWN_ERROR_STR

/-- Embedding of `SubmitTransfer.submit_managed_account_transfer`
(lines 784-831): move the managed-account-transfer amount via the gateway
transfer primitive and mark the record PAID. -/
def submit_managed_account_transfer (env : Env)
    (managed_account_transfer : ManagedAccountTransfer)
    (payment_account : PaymentAccount) : PM Unit := do
  if managed_account_transfer.amount ≤ 0 then
    pure ()
  else do
    let stripe_managed_account ←
      if truthyNat payment_account.account_id then
        get_stripe_managed_account_by_id (payment_account.account_id.getD 0)
      else
        pure none
    match stripe_managed_account with
    | none => PM.throw (.payoutError .invalid_stripe_account_id false none)
    | some sma => do
      let stripe_destination_id := sma.stripe_id
      let country := env.country_shortname
      let transfer ← stripe_create_transfer env
        managed_account_transfer.amount managed_account_transfer.currency
        stripe_destination_id country
      let _ ← update_managed_account_transfer_by_id
        managed_account_transfer.id
        { stripe_id := some transfer.id
          stripe_status := some MANAGED_ACCOUNT_TRANSFER_STATUS_PAID
          submitted_at := some env.now }
      pure ()

/-- Embedding of `SubmitTransfer.create_for_managed_account`
(lines 722-782): first settle a positive managed-account transfer through
the gateway, then create the gateway payout. -/
def create_for_managed_account (env : Env) (amount : Int)
    (transfer_id : Nat) (payment_account : PaymentAccount)
    (stripe_account_id : String) (statement_descriptor : String)
    (target_type : Option String) (target_id : Option String) :
    PM GatewayPayout := do
  let managed_account_transfer ←
    get_managed_account_transfer_by_transfer_id transfer_id
  match managed_account_transfer with
  | some mat =>
    if mat.amount > 0 then
      submit_managed_account_transfer env mat payment_account
    else
      pure ()
  | none => pure ()
  let country_shortname := env.country_shortname
  if truthyStr country_shortname = false then
    PM.throw (.payoutError .unsupported_country false none)
  else do
    let metadata ← PM.ofExcept (get_stripe_transfer_metadata transfer_id
      payment_account target_type target_id)
    let currency := env.currency_code (country_shortname.getD "")
    stripe_create_payout env amount currency (country_shortname.getD "")
      stripe_account_id statement_descriptor metadata

/-- Embedding of `SubmitTransfer._submit_stripe_transfer` (lines 550-702):
create the gateway payout and update the submission record; a gateway
`StripeError` is recorded on the StripeTransfer row (SUBMITTED when the
gateway assigned a request id, else FAILED_TO_SUBMIT) and re-raised as a
classified `PayoutError`. -/
def _submit_stripe_transfer (env : Env)
    (stripe_transfer : StripeTransfer) (payment_account : PaymentAccount)
    (amount : Int) (transfer_id : Nat) (statement_descriptor : String)
    (target_type : Option String) (target_id : Option String) : PM Unit := do
  if truthyStr stripe_transfer.stripe_id then
    PM.throw (.payoutError .duplicate_stripe_transfer false none)
  else do
  let stripe_account_id ← get_stripe_account_id payment_account
  if payment_account.account_type ≠ some ACCOUNT_TYPE_STRIPE_MANAGED_ACCOUNT
  then
    PM.throw (.payoutError .invalid_stripe_account false none)
  else
  PM.tryCatchExc
    (do
      let payout_of_stripe ← create_for_managed_account env amount
        transfer_id payment_account stripe_account_id statement_descriptor
        target_type target_id
      let stripe_bank_account := payout_of_stripe.bank_account
      let updated ← update_stripe_transfer_by_id stripe_transfer.id
        { country_shortname := some env.country_shortname
          stripe_account_id := some stripe_account_id
          stripe_account_type := some ACCOUNT_TYPE_STRIPE_MANAGED_ACCOUNT
          stripe_status := some payout_of_stripe.status
          stripe_id := some payout_of_stripe.id
          bank_name := some (stripe_bank_account.bind (·.bank_name))
          bank_last_four := some (stripe_bank_account.bind (·.last4))
          submission_status := some .submitted
          submitted_at := some env.now }
      match updated with
      | none => PM.throw (.assertionError "failed to update stripe_transfer")
      | some _ => do
        let _ ← update_transfer_by_id transfer_id
          { status := some .pending, status_code := some none }
        pure ())
    (fun exc =>
      match exc with
      | .stripeError e => do
        let stripe_error_message := e.message
        let submission_error_code :=
          if truthyStr e.code then
            e.code.getD ""
          else
            extract_failure_code_from_exception_message stripe_error_message
        let updated ← update_stripe_transfer_by_id stripe_transfer.id
          { country_shortname := some env.country_shortname
            stripe_account_id := some stripe_account_id
            stripe_account_type := some ACCOUNT_TYPE_STRIPE_MANAGED_ACCOUNT
            stripe_status := some STRIPE_TRANSFER_FAILED_STATUS
            stripe_request_id := some e.request_id
            submission_status := some
              (if truthyStr e.request_id then .submitted
               else .failed_to_submit)
            submission_error_type := some e.error_type
            submission_error_code := some submission_error_code }
        match updated with
        | none =>
          PM.throw (.assertionError "failed to update stripe_transfer")
        | some updated_stripe_transfer =>
          if updated_stripe_transfer.submission_error_code =
              some StripeErrorCode.NO_EXT_ACCOUNT_IN_CURRENCY then
            PM.throw (.payoutError .stripe_payout_acct_missing false
              stripe_error_message)
          else if updated_stripe_transfer.submission_error_code =
              some StripeErrorCode.PAYOUT_NOT_ALLOWED then
            PM.throw (.payoutError .stripe_payout_disallowed false
              stripe_error_message)
          else if updated_stripe_transfer.submission_error_type =
              some StripeErrorCode.INVALID_REQUEST_ERROR then
            PM.throw (.payoutError .stripe_invalid_request_error false
              stripe_error_message)
          else
            PM.throw (.payoutError .stripe_submission_error false
              stripe_error_message)
      | other => PM.throw other)

/-- Body of the `try` block of `SubmitTransfer.submit_stripe_transfer`
(lines 473-497): create the SUBMITTING record, submit to the gateway, then
stamp `submitted_at`/`submitted_by_id` on the transfer. -/
def submit_stripe_transfer_body (env : Env) (transfer_id : Nat)
    (payment_account : PaymentAccount) (amount : Int)
    (statement_descriptor : String) (target_type : Option String)
    (target_id : Option String) (submitted_by : Option Nat) : PM Unit := do
  let stripe_transfer ← create_stripe_transfer
    { transfer_id := transfer_id
      submission_status := .submitting
      stripe_status := "" }
  _submit_stripe_transfer env stripe_transfer payment_account
    amount transfer_id statement_descriptor target_type target_id
  let _ ← update_transfer_by_id transfer_id
    { submitted_at := some env.now, submitted_by_id := some submitted_by }
  pure ()

/-- Embedding of `SubmitTransfer.submit_stripe_transfer` (lines 449-548):
clear `status_code`/retry flag, run the submission body; a `PayoutError`
marks the transfer FAILED (when its code maps to a failed category) or
ERROR/`ERROR_SUBMISSION` and is re-raised; any other exception marks
ERROR/`UNKNOWN_ERROR` and is swallowed. -/
def submit_stripe_transfer (env : Env) (transfer_id : Nat)
    (payment_account : PaymentAccount) (amount : Int)
    (statement_descriptor : String) (target_type : Option String)
    (target_id : Option String) (submitted_by : Option Nat) : PM Unit := do
  let _ ← update_transfer_by_id transfer_id
    { status_code := some none, should_retry_on_failure := some false }
  PM.tryCatchExc
    (submit_stripe_transfer_body env transfer_id payment_account amount
      statement_descriptor target_type target_id submitted_by)
    (fun exc =>
      match exc with
      | .payoutError code _ _ => do
        let _ ← get_latest_stripe_transfer_by_transfer_id transfer_id
        if env.failed_status_codes code then do
          let _ ← update_transfer_by_id transfer_id
            { status := some .failed
              status_code := some (some (.of_payout_error_code code))
              submitted_at := some env.now
              submitted_by_id := some submitted_by }
          PM.throw exc
        else do
          let _ ← update_transfer_by_id transfer_id
            { status := some .error
              status_code := some (some .error_submission) }
          PM.throw exc
      | _ => do
        let _ ← get_latest_stripe_transfer_by_transfer_id transfer_id
        let _ ← update_transfer_by_id transfer_id
          { status := some .error
            status_code := some (some .unknown_error) }
        pure ())

/-- Continuation of `SubmitTransfer._execute` after the
constituent-transaction validation (lines 174-256): currency backfill,
deleted guard, duplicate/retry guard, method assertion, dummy-transfer
short-circuit, in-flight guard, stripe account and balance checks, and the
final submission. -/
def execute_validated (env : Env) (req : SubmitTransferRequest)
    (transfer0 : Transfer) (payment_account : PaymentAccount) : PM Unit := do
  let transfer_id := req.transfer_id
  let transfer? ←
    if truthyStr transfer0.currency = false then
      update_transfer_by_id transfer_id { currency := some env.country_shortname }
    else
      pure (some transfer0)
  let transfer ← match transfer? with
    | none => PM.throw (.assertionError "transfer must be updated successfully")
    | some t => pure t
  if transfer.deleted_at.isSome then
    PM.throw (.payoutError .transfer_already_deleted false none)
  if req.retry = false then do
    let method := pyOrStr req.method transfer.method
    let coroutine : PM (Option StripeTransfer) :=
      get_latest_transfer_submission transfer_id method
    let _ := coroutine
    if transfer.submitted_at.isSome || unawaited_coroutine_truthy then
      PM.throw (.payoutError .duplicate_transfer false none)
  else
    if transfer.status = .error ∧ payment_account.transfers_enabled = false
    then
      PM.throw (.payoutError .transfer_disabled_error false none)
  if (match req.method with
      | some m => decide (m ∈ TRANSFER_METHOD_CHOICES)
      | none => false) = false then
    PM.throw (.assertionError "request method not in TRANSFER_METHOD_CHOICES")
  if transfer.amount = 0 ∨ req.method = some TransferMethodType.DOORDASH_PAY
      ∨ req.method = some TransferMethodType.COD_INVOICE then do
    let _ ← handle_dummy_transfer env transfer_id req.method
    pure ()
  else do
    let is_transfer_processing ← is_processing_or_processed_for_method
      transfer_id req.method
    if is_transfer_processing then
      PM.throw (.payoutError .transfer_processing false none)
    if req.method = some TransferMethodType.STRIPE then do
      let _ ← has_stripe_managed_account payment_account transfer_id
      managed_account_balance_check env payment_account transfer_id
        transfer.amount
    submit_stripe_transfer env transfer_id payment_account transfer.amount
      req.statement_descriptor req.target_type req.target_id req.submitted_by

/-- Embedding of `SubmitTransfer._execute` (lines 112-256).  The constituent
transaction list is the literal empty list of the source (line 143,
`# todo: wait for txn repo GET functions to check in`); the mismatch branch
is kept as written. -/
def _execute (env : Env) (req : SubmitTransferRequest) : PM Unit := do
  let transfer_id := req.transfer_id
  let transfer? ← get_transfer_by_id transfer_id
  let transfer ← match transfer? with
    | none => PM.throw (.payoutError .transfer_not_found false none)
    | some t => pure t
  if truthyNat transfer.payment_account_id = false then
    PM.throw (.assertionError
      "there must be a payment_account_id attached with retrieved transfer")
  let payment_account? ← get_payment_account_by_id
    (transfer.payment_account_id.getD 0)
  let payment_account ← match payment_account? with
    | none => PM.throw (.payoutError .invalid_payment_account_id false none)
    | some a => pure a
  let transactions : List TransactionDBEntity := []
  match transactions with
  | [] => do
    let _ ← update_transfer_by_id transfer_id
      { status := some .error, status_code := some (some .error_invalid_state) }
    PM.throw (.payoutError .transfer_invalid_state false none)
  | _ :: _ => do
    let transaction_sum := (transactions.map (·.amount)).sum
    let diff := (transaction_sum - transfer.amount).natAbs
    if diff ≠ 0 then do
      let _ ← update_transfer_by_id transfer_id
        { status := some .error
          status_code := some (some .error_amount_mismatch) }
      PM.throw (.payoutError .mismatched_transfer_amount false none)
    else
      execute_validated env req transfer payment_account

end Payout

/-! ## Helper lemmas -/

section ListUpdateLemmas

variable {α : Type _}

theorem listUpdate_nil (p : α → Bool) (f : α → α) : listUpdate p f [] = [] := rfl

theorem listUpdate_cons (p : α → Bool) (f : α → α) (a : α) (l : List α) :
    listUpdate p f (a :: l) = (if p a then f a else a) :: listUpdate p f l := rfl

/-- An update whose `WHERE` clause matches no row leaves the table unchanged. -/
theorem listUpdate_of_find?_none (p : α → Bool) (f : α → α) (l : List α)
    (h : l.find? p = none) : listUpdate p f l = l := by
  induction l with
  | nil => rfl
  | cons a l ih =>
    rw [List.find?_cons] at h
    cases hpa : p a with
    | true => simp [hpa] at h
    | false =>
      simp only [hpa] at h
      rw [listUpdate_cons, ih h]
      simp [hpa]

/-- If `f` preserves the `WHERE` predicate, the first matching row after the
update is the updated first matching row before it. -/
theorem find?_listUpdate (p : α → Bool) (f : α → α) (l : List α)
    (hf : ∀ a, p a = true → p (f a) = true) :
    (listUpdate p f l).find? p = (l.find? p).map f := by
  induction l with
  | nil => rfl
  | cons a l ih =>
    rw [listUpdate_cons]
    cases hpa : p a with
    | true => simp [hpa, List.find?_cons, hf a hpa]
    | false => simp [hpa, List.find?_cons, ih]

/-- Every row of an updated table is either an untouched original row or the
image under `f` of an original row satisfying the `WHERE` predicate. -/
theorem mem_listUpdate (p : α → Bool) (f : α → α) (l : List α) (a' : α)
    (h : a' ∈ listUpdate p f l) :
    a' ∈ l ∨ ∃ a ∈ l, p a = true ∧ a' = f a := by
  rw [listUpdate, List.mem_map] at h
  obtain ⟨a, ha, heq⟩ := h
  by_cases hpa : p a = true
  · exact Or.inr ⟨a, ha, hpa, by rw [← heq, if_pos hpa]⟩
  · left
    rw [← heq, if_neg hpa]
    exact ha

/-- A `find?` over an appended row hits the new row exactly when nothing
before it matched. -/
theorem find?_append_none {p : α → Bool} {l : List α} (a : α)
    (h : l.find? p = none) :
    (l ++ [a]).find? p = if p a then some a else none := by
  induction l with
  | nil => cases hpa : p a <;> simp [List.find?_cons, hpa]
  | cons b l ih =>
    rw [List.find?_cons] at h
    cases hpb : p b with
    | true => simp [hpb] at h
    | false =>
      simp only [hpb] at h
      rw [List.cons_append, List.find?_cons]
      simp only [hpb]
      exact ih h

end ListUpdateLemmas

namespace Payout

theorem PM.run_pure {α : Type} (a : α) (s : St) :
    (Pure.pure (f := PM) a).run s = (.ok a, s) := rfl

theorem PM.run_bind {α β : Type} (x : PM α) (f : α → PM β) (s : St) :
    (x >>= f).run s =
      match x.run s with
      | (.ok a, s1) => (f a).run s1
      | (.error e, s1) => (.error e, s1) := rfl

theorem PM.run_read {α : Type} (f : St → α) (s : St) :
    (PM.read f).run s = (.ok (f s), s) := rfl

theorem PM.run_throw {α : Type} (e : Exc) (s : St) :
    (PM.throw e : PM α).run s = (.error e, s) := rfl

theorem PM.run_ofExcept {α : Type} (x : Except Exc α) (s : St) :
    (PM.ofExcept x).run s = (x, s) := rfl

theorem PM.run_tryCatchExc {α : Type} (x : PM α) (h : Exc → PM α) (s : St) :
    (PM.tryCatchExc x h).run s =
      match x.run s with
      | (.error e, s1) => (h e).run s1
      | r => r := rfl

end Payout

/-! ## Claim theorems -/

/-- C4, counterexample: `update_payment_intent_capture_state` is a
status-changing update on a PaymentIntent row that takes no caller-supplied
expected previous status — it rewrites the row whatever its current status is
— and when it affects zero rows it surfaces the `None`-row materialization
failure, not `PaymentIntentCouldNotBeUpdatedError`. -/
theorem capture_state_update_unguarded :
    Payin.update_payment_intent_capture_state
        (⟨[⟨1, .requires_capture, 100, none, 0⟩], [], []⟩ : Payin.DB)
        2 .succeeded 5 6 =
      (⟨[⟨1, .requires_capture, 100, none, 0⟩], [], []⟩,
       .error .noneRowTypeError) ∧
    Payin.RepoError.noneRowTypeError ≠
      Payin.RepoError.paymentIntentCouldNotBeUpdated ∧
    Payin.update_payment_intent_capture_state
        (⟨[⟨1, .requires_capture, 100, none, 0⟩], [], []⟩ : Payin.DB)
        1 .succeeded 5 6 =
      (⟨[⟨1, .succeeded, 100, some 5, 6⟩], [], []⟩,
       .ok ⟨1, .succeeded, 100, some 5, 6⟩) := by
  refine ⟨rfl, by decide, rfl⟩

/-- C4, amended: the status-transition operation
`update_payment_intent_status` is applied only where the row's current status
equals the caller-supplied expected previous status, and an update that
affects zero rows raises `PaymentIntentCouldNotBeUpdatedError` without
writing anything; the capture-state update (`update_payment_intent_capture_state`)
is keyed by id alone and is outside this guarantee. -/
theorem update_payment_intent_status_cas_guarded (db : Payin.DB) (id : Nat)
    (new_status previous_status : Payin.IntentStatus) (now : Nat) :
    (db.payment_intents.find?
        (fun r => decide (r.id = id ∧ r.status = previous_status)) = none →
      Payin.update_payment_intent_status db id new_status previous_status
          now =
        (db, .error .paymentIntentCouldNotBeUpdated)) ∧
    (∀ r, db.payment_intents.find?
        (fun r => decide (r.id = id ∧ r.status = previous_status)) = some r →
      (Payin.update_payment_intent_status db id new_status previous_status
          now).2 =
        .ok { r with status := new_status, updated_at := now }) ∧
    (∀ r' ∈ (Payin.update_payment_intent_status db id new_status
        previous_status now).1.payment_intents,
      r' ∈ db.payment_intents ∨
      ∃ r ∈ db.payment_intents, r.id = id ∧ r.status = previous_status ∧
        r' = { r with status := new_status, updated_at := now }) := by
  unfold Payin.update_payment_intent_status
  dsimp only
  refine ⟨?_, ?_, ?_⟩
  · intro h
    rw [h, listUpdate_of_find?_none _ _ _ h]
  · intro r h
    rw [h]
  · intro r' hr'
    have hmem : r' ∈ listUpdate
        (fun r => decide (r.id = id ∧ r.status = previous_status))
        (fun r => { r with status := new_status, updated_at := now })
        db.payment_intents := by
      revert hr'
      cases hfind : db.payment_intents.find?
        (fun r => decide (r.id = id ∧ r.status = previous_status)) <;>
        exact fun hr' => hr'
    rcases mem_listUpdate _ _ _ _ hmem with h | ⟨r, hrmem, hp, heq⟩
    · exact Or.inl h
    · rw [decide_eq_true_eq] at hp
      exact Or.inr ⟨r, hrmem, hp.1, hp.2, heq⟩

/-- C4, witness instance for the amended theorem: a concrete store where the
guarded update misses (wrong expected status) and errors without writing. -/
theorem update_payment_intent_status_cas_guarded_witness :
    Payin.update_payment_intent_status
        (⟨[⟨1, .requires_capture, 100, none, 0⟩], [], []⟩ : Payin.DB)
        1 .capturing .succeeded 9 =
      (⟨[⟨1, .requires_capture, 100, none, 0⟩], [], []⟩,
       .error .paymentIntentCouldNotBeUpdated) :=
  (update_payment_intent_status_cas_guarded
    (⟨[⟨1, .requires_capture, 100, none, 0⟩], [], []⟩ : Payin.DB)
    1 .capturing .succeeded 9).1 (by decide)

/-- C5: the combined PaymentIntent/PgpPaymentIntent status update updates the
pgp row first and returns `None` leaving the store untouched when that row is
missing; it proceeds to the platform row only when the pgp update matched,
raising `ValueError` (with the transactional scope rolling both statements
back) when the platform row is then missing; and on success both rows carry
the same new status and timestamp. -/
theorem payment_and_pgp_intent_status_update_atomic (db : Payin.DB)
    (new_status : Payin.IntentStatus) (pid gid now : Nat) :
    (db.pgp_payment_intents.find?
        (fun r => decide (r.id = gid ∧ r.payment_intent_id = pid)) = none →
      Payin.update_payment_and_pgp_payment_intent_status db new_status pid
          gid now =
        (db, .ok none)) ∧
    (∀ pr, db.pgp_payment_intents.find?
        (fun r => decide (r.id = gid ∧ r.payment_intent_id = pid)) = some pr →
      db.payment_intents.find? (fun r => decide (r.id = pid)) = none →
      Payin.update_payment_and_pgp_payment_intent_status db new_status pid
          gid now =
        (db, .error .valueError)) ∧
    (∀ pr r, db.pgp_payment_intents.find?
        (fun r => decide (r.id = gid ∧ r.payment_intent_id = pid)) = some pr →
      db.payment_intents.find? (fun r => decide (r.id = pid)) = some r →
      Payin.update_payment_and_pgp_payment_intent_status db new_status pid
          gid now =
        ({ db with
            payment_intents := listUpdate (fun r => decide (r.id = pid))
              (fun r => { r with status := new_status, updated_at := now })
              db.payment_intents
            pgp_payment_intents := listUpdate
              (fun r => decide (r.id = gid ∧ r.payment_intent_id = pid))
              (fun r => { r with status := new_status, updated_at := now })
              db.pgp_payment_intents },
         .ok (some ({ r with status := new_status, updated_at := now },
                    { pr with status := new_status, updated_at := now })))) := by
  unfold Payin.update_payment_and_pgp_payment_intent_status
  dsimp only
  refine ⟨?_, ?_, ?_⟩
  · intro h
    rw [h, listUpdate_of_find?_none _ _ _ h]
  · intro pr hpr hpi
    rw [hpr, hpi]
  · intro pr r hpr hpi
    rw [hpr, hpi]

/-- C5, witness instance: a store holding one matching pgp row and one
platform row, where the combined update succeeds and rewrites both. -/
theorem payment_and_pgp_intent_status_update_atomic_witness :
    Payin.update_payment_and_pgp_payment_intent_status
        (⟨[⟨3, .requires_capture, 100, none, 0⟩],
          [⟨8, 3, .requires_capture, 0⟩], []⟩ : Payin.DB)
        .capturing 3 8 7 =
      (⟨[⟨3, .capturing, 100, none, 7⟩], [⟨8, 3, .capturing, 7⟩], []⟩,
       .ok (some (⟨3, .capturing, 100, none, 7⟩, ⟨8, 3, .capturing, 7⟩))) :=
  (payment_and_pgp_intent_status_update_atomic
      (⟨[⟨3, .requires_capture, 100, none, 0⟩],
        [⟨8, 3, .requires_capture, 0⟩], []⟩ : Payin.DB)
      .capturing 3 8 7).2.2
    ⟨8, 3, .requires_capture, 0⟩ ⟨3, .requires_capture, 100, none, 0⟩
    (by decide) (by decide)

/-- Post-state of `update_payment_intent_amount`, independent of whether the
row was found. -/
theorem update_payment_intent_amount_fst (db : Payin.DB) (id : Nat)
    (amount : Int) (now : Nat) :
    (Payin.update_payment_intent_amount db id amount now).1 =
      { db with
          payment_intents := listUpdate (fun r => decide (r.id = id))
            (fun r => { r with amount := amount, updated_at := now })
            db.payment_intents } := by
  unfold Payin.update_payment_intent_amount
  dsimp only
  cases db.payment_intents.find? (fun r => decide (r.id = id)) <;> rfl

/-- C10: running the adjustment operation twice with the same
`(payment_intent_id, idempotency_key)` never inserts a second history row and
returns the original adjustment both times — the second run returns the first
run's row and leaves the store exactly as the first run left it. -/
theorem adjustment_operation_idempotent (db : Payin.DB) (pid : Nat)
    (amount_delta amount_delta2 : Int) (idempotency_key : String)
    (id1 id2 : Nat) (payer1 payer2 : Option Nat) (cur1 cur2 : String)
    (n1 n2 : Nat) (h : Payin.AdjustmentHistoryRow)
    (h1 : (Payin.adjust_payment_intent_amount db pid amount_delta
        idempotency_key id1 payer1 cur1 n1).2 = .ok h) :
    Payin.adjust_payment_intent_amount
        (Payin.adjust_payment_intent_amount db pid amount_delta
          idempotency_key id1 payer1 cur1 n1).1
        pid amount_delta2 idempotency_key id2 payer2 cur2 n2 =
      ((Payin.adjust_payment_intent_amount db pid amount_delta
          idempotency_key id1 payer1 cur1 n1).1,
       .ok h) := by
  cases hget : Payin.get_payment_intent_adjustment_history db pid
      idempotency_key with
  | some h0 =>
    have hfst : Payin.adjust_payment_intent_amount db pid amount_delta
        idempotency_key id1 payer1 cur1 n1 = (db, .ok h0) := by
      unfold Payin.adjust_payment_intent_amount
      rw [hget]
    rw [hfst] at h1 ⊢
    have hh : h0 = h := by
      simpa using h1
    subst hh
    unfold Payin.adjust_payment_intent_amount
    rw [hget]
  | none =>
    cases hintent : Payin.get_payment_intent_by_id db pid with
    | none =>
      exfalso
      have hfst : Payin.adjust_payment_intent_amount db pid amount_delta
          idempotency_key id1 payer1 cur1 n1 = (db, .error .noneRowTypeError) := by
        unfold Payin.adjust_payment_intent_amount
        rw [hget, hintent]
      rw [hfst] at h1
      simp at h1
    | some intent =>
      have hfst : Payin.adjust_payment_intent_amount db pid amount_delta
          idempotency_key id1 payer1 cur1 n1 =
          ({ (Payin.update_payment_intent_amount db pid
                (intent.amount + amount_delta) n1).1 with
              history := (Payin.update_payment_intent_amount db pid
                (intent.amount + amount_delta) n1).1.history ++
                [⟨id1, payer1, pid, intent.amount + amount_delta,
                  intent.amount, amount_delta, cur1, idempotency_key, n1⟩] },
           .ok ⟨id1, payer1, pid, intent.amount + amount_delta,
                intent.amount, amount_delta, cur1, idempotency_key, n1⟩) := by
        unfold Payin.adjust_payment_intent_amount
        rw [hget, hintent]
        rfl
      rw [hfst] at h1 ⊢
      have hh : (⟨id1, payer1, pid, intent.amount + amount_delta,
          intent.amount, amount_delta, cur1, idempotency_key, n1⟩ :
          Payin.AdjustmentHistoryRow) = h := by
        simpa using h1
      subst hh
      unfold Payin.adjust_payment_intent_amount
      have hget2 : Payin.get_payment_intent_adjustment_history
          ({ (Payin.update_payment_intent_amount db pid
                (intent.amount + amount_delta) n1).1 with
              history := (Payin.update_payment_intent_amount db pid
                (intent.amount + amount_delta) n1).1.history ++
                [⟨id1, payer1, pid, intent.amount + amount_delta,
                  intent.amount, amount_delta, cur1, idempotency_key, n1⟩] },
           Except.ok (ε := Payin.RepoError)
             (⟨id1, payer1, pid, intent.amount + amount_delta,
                intent.amount, amount_delta, cur1, idempotency_key, n1⟩ :
                Payin.AdjustmentHistoryRow)).1 pid idempotency_key =
          some ⟨id1, payer1, pid, intent.amount + amount_delta,
                intent.amount, amount_delta, cur1, idempotency_key, n1⟩ := by
        unfold Payin.get_payment_intent_adjustment_history at hget ⊢
        rw [update_payment_intent_amount_fst]
        dsimp only
        rw [find?_append_none _ hget]
        simp
      rw [hget2]

/-- C10, witness instance: a first adjustment against a concrete store
inserts the history row, and a replay with the same idempotency key (even
with a different delta) returns that same row and changes nothing. -/
theorem adjustment_operation_idempotent_witness :
    (Payin.adjust_payment_intent_amount
        (⟨[⟨1, .requires_capture, 100, none, 0⟩], [], []⟩ : Payin.DB)
        1 50 "key" 10 none "usd" 3).2 =
      .ok ⟨10, none, 1, 150, 100, 50, "usd", "key", 3⟩ ∧
    Payin.adjust_payment_intent_amount
        (Payin.adjust_payment_intent_amount
          (⟨[⟨1, .requires_capture, 100, none, 0⟩], [], []⟩ : Payin.DB)
          1 50 "key" 10 none "usd" 3).1
        1 (-7) "key" 11 (some 2) "eur" 4 =
      ((Payin.adjust_payment_intent_amount
          (⟨[⟨1, .requires_capture, 100, none, 0⟩], [], []⟩ : Payin.DB)
          1 50 "key" 10 none "usd" 3).1,
       .ok ⟨10, none, 1, 150, 100, 50, "usd", "key", 3⟩) :=
  ⟨rfl,
   adjustment_operation_idempotent
     (⟨[⟨1, .requires_capture, 100, none, 0⟩], [], []⟩ : Payin.DB)
     1 50 (-7) "key" 10 11 none (some 2) "usd" "eur" 3 4
     ⟨10, none, 1, 150, 100, 50, "usd", "key", 3⟩ rfl⟩

/-- C1: whenever `submit` finds the transfer and its payment account, the
stubbed constituent-transaction list (always `[]`) sends the call into the
no-transactions branch: the transfer is marked status=ERROR with
status_code=ERROR_INVALID_STATE and `TRANSFER_INVALID_STATE` is raised — in
particular the ERROR_AMOUNT_MISMATCH / `MISMATCHED_TRANSFER_AMOUNT` branch is
never the outcome. -/
theorem submit_always_invalid_state (env : Payout.Env)
    (req : Payout.SubmitTransferRequest) (s : Payout.St)
    (t : Payout.Transfer) (pa : Payout.PaymentAccount)
    (h1 : s.transfers.find? (fun x => decide (x.id = req.transfer_id)) =
      some t)
    (h2 : Payout.truthyNat t.payment_account_id = true)
    (h3 : s.payment_accounts.find?
      (fun a => decide (a.id = t.payment_account_id.getD 0)) = some pa) :
    (Payout._execute env req).run s =
      (.error (.payoutError .transfer_invalid_state false none),
       ((Payout.update_transfer_by_id req.transfer_id
          { status := some .error
            status_code := some (some .error_invalid_state) }).run s).2) ∧
    ((Payout.update_transfer_by_id req.transfer_id
        { status := some .error
          status_code := some (some .error_invalid_state) }).run
        s).2.transfers.find? (fun x => decide (x.id = req.transfer_id)) =
      some { t with status := .error,
                    status_code := some .error_invalid_state } := by
  constructor
  · unfold Payout._execute
    simp [Payout.PM.run_bind, Payout.get_transfer_by_id,
      Payout.get_payment_account_by_id, Payout.PM.run_read,
      Payout.PM.run_pure, Payout.PM.run_throw, Payout.update_transfer_by_id,
      h1, h2, h3]
  · unfold Payout.update_transfer_by_id
    dsimp only
    rw [find?_listUpdate _ _ _
      (fun a ha => by simpa [Payout.TransferUpdate.apply] using ha), h1]
    rfl

/-- C1, witness instance: a concrete store with a found transfer and found
payment account, where `submit` raises `TRANSFER_INVALID_STATE`. -/
theorem submit_always_invalid_state_witness :
    ((Payout._execute
        { now := 0, account_balance := fun _ => 0,
          country_shortname := some "US", currency_code := fun _ => "usd",
          create_payout_result := .ok ⟨"p", "paid", none⟩,
          create_transfer_result := .ok ⟨"t"⟩,
          failed_status_codes := fun _ => false }
        { transfer_id := 7, statement_descriptor := "sd" }).run
      ⟨[⟨7, some 1, 250, some "usd", .new, none, none, none, some "stripe",
         none, false⟩],
       [⟨1, some 1, some "stripe_managed_account", some "merchant", true⟩],
       [⟨1, "acct"⟩], [], [], 1, 1, []⟩).1 =
      .error (.payoutError .transfer_invalid_state false none) :=
  congrArg Prod.fst
    ((submit_always_invalid_state
      { now := 0, account_balance := fun _ => 0,
        country_shortname := some "US", currency_code := fun _ => "usd",
        create_payout_result := .ok ⟨"p", "paid", none⟩,
        create_transfer_result := .ok ⟨"t"⟩,
        failed_status_codes := fun _ => false }
      { transfer_id := 7, statement_descriptor := "sd" }
      ⟨[⟨7, some 1, 250, some "usd", .new, none, none, none, some "stripe",
         none, false⟩],
       [⟨1, some 1, some "stripe_managed_account", some "merchant", true⟩],
       [⟨1, "acct"⟩], [], [], 1, 1, []⟩
      ⟨7, some 1, 250, some "usd", .new, none, none, none, some "stripe",
       none, false⟩
      ⟨1, some 1, some "stripe_managed_account", some "merchant", true⟩
      rfl rfl rfl).1)

/-- C2: at a concrete store whose transfer has `submitted_at` unset and no
gateway submission record for the method (first conjunct), a non-retry
`submit` reaching the duplicate guard still raises `DUPLICATE_TRANSFER`
(second conjunct): line 198 calls the `async`
`get_latest_transfer_submission` without `await`, so the guard's right
operand is an always-truthy coroutine object and the recorded-submission
lookup never actually runs. -/
theorem duplicate_guard_fires_without_prior_submission :
    (Payout.get_latest_transfer_submission 7
        (some Payout.TransferMethodType.STRIPE)).run
      ⟨[⟨7, some 1, 0, some "usd", .new, none, none, none, some "stripe",
         none, false⟩],
       [⟨1, some 1, some "stripe_managed_account", some "merchant", true⟩],
       [⟨1, "acct"⟩], [], [], 1, 1, []⟩ =
      (.ok none,
       ⟨[⟨7, some 1, 0, some "usd", .new, none, none, none, some "stripe",
          none, false⟩],
        [⟨1, some 1, some "stripe_managed_account", some "merchant", true⟩],
        [⟨1, "acct"⟩], [], [], 1, 1, []⟩) ∧
    (Payout.execute_validated
        { now := 9, account_balance := fun _ => 0,
          country_shortname := some "US", currency_code := fun _ => "usd",
          create_payout_result := .ok ⟨"p", "paid", none⟩,
          create_transfer_result := .ok ⟨"t"⟩,
          failed_status_codes := fun _ => false }
        ⟨7, "sd", none, none, some "stripe", false, none⟩
        ⟨7, some 1, 0, some "usd", .new, none, none, none, some "stripe",
         none, false⟩
        ⟨1, some 1, some "stripe_managed_account", some "merchant", true⟩).run
      ⟨[⟨7, some 1, 0, some "usd", .new, none, none, none, some "stripe",
         none, false⟩],
       [⟨1, some 1, some "stripe_managed_account", some "merchant", true⟩],
       [⟨1, "acct"⟩], [], [], 1, 1, []⟩ =
      (.error (.payoutError .duplicate_transfer false none),
       ⟨[⟨7, some 1, 0, some "usd", .new, none, none, none, some "stripe",
          none, false⟩],
        [⟨1, some 1, some "stripe_managed_account", some "merchant", true⟩],
        [⟨1, "acct"⟩], [], [], 1, 1, []⟩) := ⟨rfl, rfl⟩

/-- C3, counterexample: at a concrete zero-amount transfer, `submit` does not
end PAID — the stubbed constituent-transaction step raises
`TRANSFER_INVALID_STATE` and leaves the row status=ERROR with `submitted_at`
unset; and even past that validation, a non-retry call raises
`DUPLICATE_TRANSFER` at the (un-awaited) duplicate guard before the
zero-amount check. -/
theorem zero_amount_submit_not_paid :
    ((Payout._execute
        { now := 9, account_balance := fun _ => 0,
          country_shortname := some "US", currency_code := fun _ => "usd",
          create_payout_result := .ok ⟨"p", "paid", none⟩,
          create_transfer_result := .ok ⟨"t"⟩,
          failed_status_codes := fun _ => false }
        ⟨7, "sd", none, none, some "stripe", false, none⟩).run
      ⟨[⟨7, some 1, 0, some "usd", .new, none, none, none, some "stripe",
         none, false⟩],
       [⟨1, some 1, some "stripe_managed_account", some "merchant", true⟩],
       [⟨1, "acct"⟩], [], [], 1, 1, []⟩).1 =
      .error (.payoutError .transfer_invalid_state false none) ∧
    (((Payout._execute
        { now := 9, account_balance := fun _ => 0,
          country_shortname := some "US", currency_code := fun _ => "usd",
          create_payout_result := .ok ⟨"p", "paid", none⟩,
          create_transfer_result := .ok ⟨"t"⟩,
          failed_status_codes := fun _ => false }
        ⟨7, "sd", none, none, some "stripe", false, none⟩).run
      ⟨[⟨7, some 1, 0, some "usd", .new, none, none, none, some "stripe",
         none, false⟩],
       [⟨1, some 1, some "stripe_managed_account", some "merchant", true⟩],
       [⟨1, "acct"⟩], [], [], 1, 1, []⟩).2.transfers.find?
        (fun x => decide (x.id = 7))).map
        (fun x => (x.status, x.submitted_at)) =
      some (.error, none) ∧
    ((Payout.execute_validated
        { now := 9, account_balance := fun _ => 0,
          country_shortname := some "US", currency_code := fun _ => "usd",
          create_payout_result := .ok ⟨"p", "paid", none⟩,
          create_transfer_result := .ok ⟨"t"⟩,
          failed_status_codes := fun _ => false }
        ⟨7, "sd", none, none, some "stripe", false, none⟩
        ⟨7, some 1, 0, some "usd", .new, none, none, none, some "stripe",
         none, false⟩
        ⟨1, some 1, some "stripe_managed_account", some "merchant", true⟩).run
      ⟨[⟨7, some 1, 0, some "usd", .new, none, none, none, some "stripe",
         none, false⟩],
       [⟨1, some 1, some "stripe_managed_account", some "merchant", true⟩],
       [⟨1, "acct"⟩], [], [], 1, 1, []⟩).1 =
      .error (.payoutError .duplicate_transfer false none) ∧
    Payout.TransferStatusType.error ≠ Payout.TransferStatusType.paid :=
  ⟨rfl, rfl, rfl, by decide⟩

/-- C3, amended: when submission reaches the zero-amount check — which
requires the retry path (the stubbed transaction validation and the
un-awaited duplicate guard block every non-retry call) with the
transfers-enabled guard passed, a set currency and an undeleted transfer —
a transfer with `amount == 0` takes the dummy-transfer path: it ends
status=PAID with `submitted_at` set and `status_code` cleared, and no
gateway call is made. -/
theorem zero_amount_dummy_path_paid (env : Payout.Env)
    (req : Payout.SubmitTransferRequest) (s : Payout.St)
    (t : Payout.Transfer) (pa : Payout.PaymentAccount)
    (hcur : Payout.truthyStr t.currency = true)
    (hdel : t.deleted_at = none)
    (hretry : req.retry = true)
    (hguard : ¬(t.status = .error ∧ pa.transfers_enabled = false))
    (hmethod : req.method = some Payout.TransferMethodType.STRIPE)
    (hamount : t.amount = 0) :
    (Payout.execute_validated env req t pa).run s =
      (.ok (), ((Payout.update_transfer_by_id req.transfer_id
        { method := some req.method
          submitted_at := some env.now
          status := some .paid
          status_code := some none }).run s).2) ∧
    (∀ x, s.transfers.find? (fun y => decide (y.id = req.transfer_id)) =
        some x →
      ((Payout.update_transfer_by_id req.transfer_id
        { method := some req.method, submitted_at := some env.now,
          status := some .paid,
          status_code := some none }).run s).2.transfers.find?
          (fun y => decide (y.id = req.transfer_id)) =
        some { x with method := req.method, submitted_at := some env.now,
                      status := .paid, status_code := none }) ∧
    ((Payout.update_transfer_by_id req.transfer_id
        { method := some req.method, submitted_at := some env.now,
          status := some .paid,
          status_code := some none }).run s).2.gateway_calls =
      s.gateway_calls := by
  refine ⟨?_, ?_, ?_⟩
  · unfold Payout.execute_validated Payout.handle_dummy_transfer
    simp [Payout.PM.run_bind, Payout.PM.run_pure, Payout.PM.run_read,
      Payout.PM.run_throw, Payout.PM.run_tryCatchExc,
      Payout.update_transfer_by_id, hcur, hdel, hretry, hguard, hmethod,
      hamount, Payout.TRANSFER_METHOD_CHOICES,
      Payout.TransferMethodType.STRIPE, Payout.TransferMethodType.DOORDASH_PAY,
      Payout.TransferMethodType.COD_INVOICE]
  · intro x hx
    unfold Payout.update_transfer_by_id
    dsimp only
    rw [find?_listUpdate _ _ _
      (fun a ha => by simpa [Payout.TransferUpdate.apply] using ha), hx]
    rfl
  · unfold Payout.update_transfer_by_id
    rfl

/-- C3, witness instance for the amended theorem: concrete zero-amount retry
submission ending PAID with no gateway call. -/
theorem zero_amount_dummy_path_paid_witness :
    ((Payout.execute_validated
        { now := 9, account_balance := fun _ => 0,
          country_shortname := some "US", currency_code := fun _ => "usd",
          create_payout_result := .ok ⟨"p", "paid", none⟩,
          create_transfer_result := .ok ⟨"t"⟩,
          failed_status_codes := fun _ => false }
        ⟨7, "sd", none, none, some "stripe", true, none⟩
        ⟨7, some 1, 0, some "usd", .new, none, none, none, some "stripe",
         none, false⟩
        ⟨1, some 1, some "stripe_managed_account", some "merchant", true⟩).run
      ⟨[⟨7, some 1, 0, some "usd", .new, none, none, none, some "stripe",
         none, false⟩],
       [⟨1, some 1, some "stripe_managed_account", some "merchant", true⟩],
       [⟨1, "acct"⟩], [], [], 1, 1, []⟩).1 = .ok () :=
  congrArg Prod.fst
    ((zero_amount_dummy_path_paid
      { now := 9, account_balance := fun _ => 0,
        country_shortname := some "US", currency_code := fun _ => "usd",
        create_payout_result := .ok ⟨"p", "paid", none⟩,
        create_transfer_result := .ok ⟨"t"⟩,
        failed_status_codes := fun _ => false }
      ⟨7, "sd", none, none, some "stripe", true, none⟩
      ⟨[⟨7, some 1, 0, some "usd", .new, none, none, none, some "stripe",
         none, false⟩],
       [⟨1, some 1, some "stripe_managed_account", some "merchant", true⟩],
       [⟨1, "acct"⟩], [], [], 1, 1, []⟩
      ⟨7, some 1, 0, some "usd", .new, none, none, none, some "stripe",
       none, false⟩
      ⟨1, some 1, some "stripe_managed_account", some "merchant", true⟩
      rfl rfl rfl (by decide) rfl rfl).1)

/-- C9, counterexample: at a concrete retry submission whose transfer has
previous status FAILED and whose payment account has `transfers_enabled`
false, `submit` raises `TRANSFER_INVALID_STATE` (the stubbed validation),
not `TRANSFER_DISABLED_ERROR`; and even the post-validation continuation
does not raise it — the guard at line 208 tests status == ERROR, not FAILED,
so this zero-amount retry completes the dummy path successfully. -/
theorem retry_disabled_guard_counterexample :
    ((Payout._execute
        { now := 9, account_balance := fun _ => 0,
          country_shortname := some "US", currency_code := fun _ => "usd",
          create_payout_result := .ok ⟨"p", "paid", none⟩,
          create_transfer_result := .ok ⟨"t"⟩,
          failed_status_codes := fun _ => false }
        ⟨7, "sd", none, none, some "stripe", true, none⟩).run
      ⟨[⟨7, some 1, 0, some "usd", .failed, none, none, none, some "stripe",
         none, false⟩],
       [⟨1, some 1, some "stripe_managed_account", some "merchant", false⟩],
       [⟨1, "acct"⟩], [], [], 1, 1, []⟩).1 =
      .error (.payoutError .transfer_invalid_state false none) ∧
    ((Payout.execute_validated
        { now := 9, account_balance := fun _ => 0,
          country_shortname := some "US", currency_code := fun _ => "usd",
          create_payout_result := .ok ⟨"p", "paid", none⟩,
          create_transfer_result := .ok ⟨"t"⟩,
          failed_status_codes := fun _ => false }
        ⟨7, "sd", none, none, some "stripe", true, none⟩
        ⟨7, some 1, 0, some "usd", .failed, none, none, none, some "stripe",
         none, false⟩
        ⟨1, some 1, some "stripe_managed_account", some "merchant",
         false⟩).run
      ⟨[⟨7, some 1, 0, some "usd", .failed, none, none, none, some "stripe",
         none, false⟩],
       [⟨1, some 1, some "stripe_managed_account", some "merchant", false⟩],
       [⟨1, "acct"⟩], [], [], 1, 1, []⟩).1 = .ok () ∧
    Payout.TransferStatusType.failed ≠ Payout.TransferStatusType.error :=
  ⟨rfl, rfl, by decide⟩

/-- C9, amended: when a retry submission reaches the retry guard (set
currency, transfer not deleted), a previous status of ERROR — the status the
source actually tests, not FAILED — combined with `transfers_enabled` false
on the account raises `TRANSFER_DISABLED_ERROR` and leaves the store
untouched: no submission is attempted. -/
theorem retry_disabled_guard_error_status (env : Payout.Env)
    (req : Payout.SubmitTransferRequest) (s : Payout.St)
    (t : Payout.Transfer) (pa : Payout.PaymentAccount)
    (hcur : Payout.truthyStr t.currency = true)
    (hdel : t.deleted_at = none)
    (hretry : req.retry = true)
    (hstatus : t.status = .error)
    (hen : pa.transfers_enabled = false) :
    (Payout.execute_validated env req t pa).run s =
      (.error (.payoutError .transfer_disabled_error false none), s) := by
  unfold Payout.execute_validated
  simp [Payout.PM.run_bind, Payout.PM.run_pure, Payout.PM.run_read,
    Payout.PM.run_throw, Payout.update_transfer_by_id, hcur, hdel, hretry,
    hstatus, hen]

/-- C9, witness instance for the amended theorem: concrete ERROR-status
retry with transfers disabled raising `TRANSFER_DISABLED_ERROR`. -/
theorem retry_disabled_guard_error_status_witness :
    (Payout.execute_validated
        { now := 9, account_balance := fun _ => 0,
          country_shortname := some "US", currency_code := fun _ => "usd",
          create_payout_result := .ok ⟨"p", "paid", none⟩,
          create_transfer_result := .ok ⟨"t"⟩,
          failed_status_codes := fun _ => false }
        ⟨7, "sd", none, none, some "stripe", true, none⟩
        ⟨7, some 1, 0, some "usd", .error, none, none, none, some "stripe",
         none, false⟩
        ⟨1, some 1, some "stripe_managed_account", some "merchant",
         false⟩).run
      ⟨[⟨7, some 1, 0, some "usd", .error, none, none, none, some "stripe",
         none, false⟩],
       [⟨1, some 1, some "stripe_managed_account", some "merchant", false⟩],
       [⟨1, "acct"⟩], [], [], 1, 1, []⟩ =
      (.error (.payoutError .transfer_disabled_error false none),
       ⟨[⟨7, some 1, 0, some "usd", .error, none, none, none, some "stripe",
          none, false⟩],
        [⟨1, some 1, some "stripe_managed_account", some "merchant", false⟩],
        [⟨1, "acct"⟩], [], [], 1, 1, []⟩) :=
  retry_disabled_guard_error_status
    { now := 9, account_balance := fun _ => 0,
      country_shortname := some "US", currency_code := fun _ => "usd",
      create_payout_result := .ok ⟨"p", "paid", none⟩,
      create_transfer_result := .ok ⟨"t"⟩,
      failed_status_codes := fun _ => false }
    ⟨7, "sd", none, none, some "stripe", true, none⟩
    ⟨[⟨7, some 1, 0, some "usd", .error, none, none, none, some "stripe",
       none, false⟩],
     [⟨1, some 1, some "stripe_managed_account", some "merchant", false⟩],
     [⟨1, "acct"⟩], [], [], 1, 1, []⟩
    ⟨7, some 1, 0, some "usd", .error, none, none, none, some "stripe",
     none, false⟩
    ⟨1, some 1, some "stripe_managed_account", some "merchant", false⟩
    rfl rfl rfl rfl rfl

/-- Evaluation of one `update_transfer_by_id` step: it always succeeds,
returning the post-update row (if any) and writing the keyed update. -/
theorem run_update_transfer_by_id (tid : Nat) (u : Payout.TransferUpdate)
    (s : Payout.St) :
    (Payout.update_transfer_by_id tid u).run s =
      (.ok ((s.transfers.find? (fun t => decide (t.id = tid))).map u.apply),
       { s with transfers :=
          listUpdate (fun t => decide (t.id = tid)) u.apply s.transfers }) :=
  rfl

/-- C7: any non-`PayoutError` exception thrown by the submission body of
`submit_stripe_transfer` is absorbed — the call returns normally — after the
transfer is set to status=ERROR with status_code=UNKNOWN_ERROR. -/
theorem unexpected_exception_absorbed (env : Payout.Env) (transfer_id : Nat)
    (pa : Payout.PaymentAccount) (amount : Int) (sd : String)
    (tt tgt : Option String) (sb : Option Nat) (s s2 : Payout.St)
    (e : Payout.Exc)
    (hbody : (Payout.submit_stripe_transfer_body env transfer_id pa amount sd
        tt tgt sb).run
        ((Payout.update_transfer_by_id transfer_id
          { status_code := some none,
            should_retry_on_failure := some false }).run s).2 =
      (.error e, s2))
    (hnp : e.isPayoutError = false) :
    (Payout.submit_stripe_transfer env transfer_id pa amount sd tt tgt
        sb).run s =
      (.ok (), ((Payout.update_transfer_by_id transfer_id
        { status := some .error,
          status_code := some (some .unknown_error) }).run s2).2) := by
  simp only [run_update_transfer_by_id] at hbody
  cases e with
  | payoutError c r m => simp [Payout.Exc.isPayoutError] at hnp
  | stripeError d =>
    unfold Payout.submit_stripe_transfer
    simp [Payout.PM.run_bind, Payout.PM.run_tryCatchExc,
      run_update_transfer_by_id,
      Payout.get_latest_stripe_transfer_by_transfer_id, Payout.PM.run_read,
      Payout.PM.run_pure, hbody]
  | assertionError m =>
    unfold Payout.submit_stripe_transfer
    simp [Payout.PM.run_bind, Payout.PM.run_tryCatchExc,
      run_update_transfer_by_id,
      Payout.get_latest_stripe_transfer_by_transfer_id, Payout.PM.run_read,
      Payout.PM.run_pure, hbody]
  | generic m =>
    unfold Payout.submit_stripe_transfer
    simp [Payout.PM.run_bind, Payout.PM.run_tryCatchExc,
      run_update_transfer_by_id,
      Payout.get_latest_stripe_transfer_by_transfer_id, Payout.PM.run_read,
      Payout.PM.run_pure, hbody]

/-- C7, witness instance: a gateway client that throws a generic (non
`StripeError`, non `PayoutError`) exception during payout creation; the
submission call nevertheless returns `ok`. -/
theorem unexpected_exception_absorbed_witness :
    ((Payout.submit_stripe_transfer
        { now := 9, account_balance := fun _ => 0,
          country_shortname := some "US", currency_code := fun _ => "usd",
          create_payout_result := .error (.generic "boom"),
          create_transfer_result := .ok ⟨"t"⟩,
          failed_status_codes := fun _ => false }
        7
        ⟨1, some 1, some "stripe_managed_account", some "merchant", true⟩
        250 "sd" none none none).run
      ⟨[⟨7, some 1, 250, some "usd", .new, none, none, none, some "stripe",
         none, false⟩],
       [⟨1, some 1, some "stripe_managed_account", some "merchant", true⟩],
       [⟨1, "acct"⟩], [], [], 1, 1, []⟩).1 = .ok () :=
  congrArg Prod.fst
    (unexpected_exception_absorbed
      { now := 9, account_balance := fun _ => 0,
        country_shortname := some "US", currency_code := fun _ => "usd",
        create_payout_result := .error (.generic "boom"),
        create_transfer_result := .ok ⟨"t"⟩,
        failed_status_codes := fun _ => false }
      7
      ⟨1, some 1, some "stripe_managed_account", some "merchant", true⟩
      250 "sd" none none none
      ⟨[⟨7, some 1, 250, some "usd", .new, none, none, none, some "stripe",
         none, false⟩],
       [⟨1, some 1, some "stripe_managed_account", some "merchant", true⟩],
       [⟨1, "acct"⟩], [], [], 1, 1, []⟩
      _ _ rfl rfl)

/-- Variant of `find?_listUpdate` for an update keyed by a different
predicate: when `f` does not change `p`-membership, the first `p`-match
after the update is the (possibly updated) first `p`-match before it. -/
theorem find?_listUpdate_preserve {α : Type _} (p q : α → Bool) (f : α → α)
    (l : List α) (hp : ∀ a, p (f a) = p a) :
    (listUpdate q f l).find? p =
      (l.find? p).map (fun a => if q a then f a else a) := by
  induction l with
  | nil => rfl
  | cons a l ih =>
    rw [listUpdate_cons, List.find?_cons, List.find?_cons]
    cases hqa : q a with
    | true =>
      cases hpa : p a with
      | true => simp [hp, hpa, hqa]
      | false => simp [hp, hpa, hqa, ih]
    | false =>
      cases hpa : p a with
      | true => simp [hpa, hqa]
      | false => simp [hpa, hqa, ih]

namespace Payout

/-- Behaviour of the reconciliation half of the balance check, for an
arbitrary still-needed amount: account cross-validation, and the resulting
managed-account-transfer amount in every case. -/
theorem reconcile_spec (env : Env) (pa : PaymentAccount) (tid : Nat)
    (needed : Int) (s : St)
    (hok : ((managed_account_balance_check_reconcile env pa tid needed).run
      s).1 = .ok ()) :
    (∀ m, s.managed_account_transfers.find?
        (fun x => decide (x.transfer_id = tid)) = some m →
      (truthyNat m.payment_account_id = true →
        pa.id = m.payment_account_id.getD 0) ∧
      (((managed_account_balance_check_reconcile env pa tid needed).run
          s).2.managed_account_transfers.find?
          (fun x => decide (x.transfer_id = tid))).map (fun x => x.amount) =
        some (if needed > 0 then max m.amount needed else 0)) ∧
    (s.managed_account_transfers.find?
        (fun x => decide (x.transfer_id = tid)) = none →
      (((managed_account_balance_check_reconcile env pa tid needed).run
          s).2.managed_account_transfers.find?
          (fun x => decide (x.transfer_id = tid))).map
          (fun x => (x.amount, x.payment_account_id)) =
        (if needed > 0 then some (needed, some pa.id) else none)) := by
  cases hmat : s.managed_account_transfers.find?
      (fun x => decide (x.transfer_id = tid)) with
  | none =>
    constructor
    · intro m hm
      simp at hm
    · intro _
      by_cases hpos : needed > 0
      · have hrun : (managed_account_balance_check_reconcile env pa tid
            needed).run s =
            (.ok (), { s with
              managed_account_transfers := s.managed_account_transfers ++
                [⟨s.next_managed_account_transfer_id, tid, some pa.id,
                  needed,
                  if truthyStr env.country_shortname then
                    some (env.currency_code (env.country_shortname.getD ""))
                  else none, none, none, none⟩]
              next_managed_account_transfer_id :=
                s.next_managed_account_transfer_id + 1 }) := by
          unfold managed_account_balance_check_reconcile
            validate_payment_account_of_managed_account_transfer
          simp [PM.run_bind, PM.run_pure, PM.run_read, PM.run_throw,
            get_managed_account_transfer_by_transfer_id,
            create_managed_account_transfer, hmat, hpos]
        rw [hrun]
        dsimp only
        rw [find?_append_none _ hmat]
        simp [hpos]
      · have hrun : (managed_account_balance_check_reconcile env pa tid
            needed).run s = (.ok (), s) := by
          unfold managed_account_balance_check_reconcile
            validate_payment_account_of_managed_account_transfer
          simp [PM.run_bind, PM.run_pure, PM.run_read, PM.run_throw,
            get_managed_account_transfer_by_transfer_id, hmat, hpos]
        rw [hrun]
        dsimp only
        rw [hmat]
        simp [hpos]
  | some m =>
    have hacct : truthyNat m.payment_account_id = true →
        pa.id = m.payment_account_id.getD 0 := by
      intro ht
      by_contra hne
      have hrun : (managed_account_balance_check_reconcile env pa tid
          needed).run s =
          (.error (.payoutError .mismatched_transfer_payment_account false
            (some "payment account of managed account transfer mismatched")),
           { s with
              transfers := listUpdate (fun t => decide (t.id = tid))
                (TransferUpdate.apply
                  { status := some .error
                    status_code := some (some .error_account_id_mismatch) })
                s.transfers }) := by
        unfold managed_account_balance_check_reconcile
          validate_payment_account_of_managed_account_transfer
        simp [PM.run_bind, PM.run_pure, PM.run_read, PM.run_throw,
          get_managed_account_transfer_by_transfer_id,
          update_transfer_by_id, hmat, ht, hne]
      rw [hrun] at hok
      simp at hok
    constructor
    · intro m' hm'
      injection hm' with hm'
      subst hm'
      refine ⟨hacct, ?_⟩
      by_cases hpos : needed > 0
      · by_cases hlt : m.amount < needed
        · have hrun : (managed_account_balance_check_reconcile env pa tid
              needed).run s =
              (.ok (),
               { s with
                  managed_account_transfers :=
                    listUpdate (fun x => decide (x.id = m.id))
                      (ManagedAccountTransferUpdate.apply
                        { amount := some needed })
                      s.managed_account_transfers }) := by
            unfold managed_account_balance_check_reconcile
              validate_payment_account_of_managed_account_transfer
            rcases hx : truthyNat m.payment_account_id with _ | _
            · simp [PM.run_bind, PM.run_pure, PM.run_read, PM.run_throw,
                get_managed_account_transfer_by_transfer_id,
                update_managed_account_transfer_by_id, hmat, hpos, hlt, hx]
            · simp [PM.run_bind, PM.run_pure, PM.run_read, PM.run_throw,
                get_managed_account_transfer_by_transfer_id,
                update_managed_account_transfer_by_id, hmat, hpos, hlt, hx,
                hacct hx]
          rw [hrun]
          dsimp only
          rw [find?_listUpdate_preserve
            (fun (x : ManagedAccountTransfer) => decide (x.transfer_id = tid))
            (fun (x : ManagedAccountTransfer) => decide (x.id = m.id))
            (ManagedAccountTransferUpdate.apply { amount := some needed })
            s.managed_account_transfers (fun a => rfl), hmat]
          simp [ManagedAccountTransferUpdate.apply, hpos,
            max_eq_right (le_of_lt hlt)]
        · have hrun : (managed_account_balance_check_reconcile env pa tid
              needed).run s = (.ok (), s) := by
            unfold managed_account_balance_check_reconcile
              validate_payment_account_of_managed_account_transfer
            rcases hx : truthyNat m.payment_account_id with _ | _
            · simp [PM.run_bind, PM.run_pure, PM.run_read, PM.run_throw,
                get_managed_account_transfer_by_transfer_id, hmat, hpos,
                hlt, hx]
            · simp [PM.run_bind, PM.run_pure, PM.run_read, PM.run_throw,
                get_managed_account_transfer_by_transfer_id, hmat, hpos,
                hlt, hx, hacct hx]
          rw [hrun]
          dsimp only
          rw [hmat]
          rw [not_lt] at hlt
          simp [hpos, max_eq_left hlt]
      · have hrun : (managed_account_balance_check_reconcile env pa tid
            needed).run s =
            (.ok (),
             { s with
                managed_account_transfers :=
                  listUpdate (fun x => decide (x.id = m.id))
                    (ManagedAccountTransferUpdate.apply { amount := some 0 })
                    s.managed_account_transfers }) := by
          unfold managed_account_balance_check_reconcile
            validate_payment_account_of_managed_account_transfer
          rcases hx : truthyNat m.payment_account_id with _ | _
          · simp [PM.run_bind, PM.run_pure, PM.run_read, PM.run_throw,
              get_managed_account_transfer_by_transfer_id,
              update_managed_account_transfer_by_id, hmat, hpos, hx]
          · simp [PM.run_bind, PM.run_pure, PM.run_read, PM.run_throw,
              get_managed_account_transfer_by_transfer_id,
              update_managed_account_transfer_by_id, hmat, hpos, hx,
              hacct hx]
        rw [hrun]
        dsimp only
        rw [find?_listUpdate_preserve
          (fun (x : ManagedAccountTransfer) => decide (x.transfer_id = tid))
          (fun (x : ManagedAccountTransfer) => decide (x.id = m.id))
          (ManagedAccountTransferUpdate.apply { amount := some 0 })
          s.managed_account_transfers (fun a => rfl), hmat]
        simp [ManagedAccountTransferUpdate.apply, hpos]
    · intro hnone
      simp at hnone

/-- Evaluation of the still-needed-amount half of the balance check: the
whole check runs as the reconciliation at the computed shortfall. -/
theorem balance_check_run_eq (env : Env) (pa : PaymentAccount) (tid : Nat)
    (amount : Int) (s : St) :
    (managed_account_balance_check env pa tid amount).run s =
      (managed_account_balance_check_reconcile env pa tid
        (if pa.entity = some DASHER then amount
         else amount - env.account_balance
           (if truthyNat pa.account_id then
             s.stripe_managed_accounts.find?
               (fun a => decide (a.id = pa.account_id.getD 0))
            else none))).run s := by
  unfold managed_account_balance_check
  by_cases hd : pa.entity = some DASHER
  · simp [PM.run_bind, PM.run_pure, hd]
  · by_cases ha : truthyNat pa.account_id
    · simp [PM.run_bind, PM.run_pure, PM.run_read,
        get_stripe_managed_account_by_id, hd, ha]
    · simp [PM.run_bind, PM.run_pure, PM.run_read, hd, ha]

end Payout

/-- C8, counterexample: with gateway balance 0, transfer amount 50 (shortfall
50 > 0) and an existing managed-account transfer of amount 100 for the same
payment account, the balance check completes without error but leaves the
amount at 100, not max(shortfall, 0) = 50 — an existing amount at or above a
positive shortfall is kept, not clamped. -/
theorem managed_account_transfer_amount_not_clamped :
    ((Payout.managed_account_balance_check
        { now := 9, account_balance := fun _ => 0,
          country_shortname := some "US", currency_code := fun _ => "usd",
          create_payout_result := .ok ⟨"p", "paid", none⟩,
          create_transfer_result := .ok ⟨"t"⟩,
          failed_status_codes := fun _ => false }
        ⟨1, some 1, some "stripe_managed_account", some "merchant", true⟩
        7 50).run
      ⟨[⟨7, some 1, 50, some "usd", .new, none, none, none, some "stripe",
         none, false⟩],
       [⟨1, some 1, some "stripe_managed_account", some "merchant", true⟩],
       [⟨1, "acct"⟩], [],
       [⟨1, 7, some 1, 100, some "usd", none, none, none⟩],
       1, 2, []⟩).1 = .ok () ∧
    (((Payout.managed_account_balance_check
        { now := 9, account_balance := fun _ => 0,
          country_shortname := some "US", currency_code := fun _ => "usd",
          create_payout_result := .ok ⟨"p", "paid", none⟩,
          create_transfer_result := .ok ⟨"t"⟩,
          failed_status_codes := fun _ => false }
        ⟨1, some 1, some "stripe_managed_account", some "merchant", true⟩
        7 50).run
      ⟨[⟨7, some 1, 50, some "usd", .new, none, none, none, some "stripe",
         none, false⟩],
       [⟨1, some 1, some "stripe_managed_account", some "merchant", true⟩],
       [⟨1, "acct"⟩], [],
       [⟨1, 7, some 1, 100, some "usd", none, none, none⟩],
       1, 2, []⟩).2.managed_account_transfers.find?
        (fun m => decide (m.transfer_id = 7))).map (fun m => m.amount) =
      some 100 ∧
    ¬((100 : Int) = max 50 0) :=
  ⟨rfl, rfl, by decide⟩

/-- C8, amended: when the managed-account balance check completes without
error for a transfer of amount A, with shortfall = A for dasher entities and
A minus the current gateway balance otherwise: a pre-existing
ManagedAccountTransfer that records a payment account records the same one
as the given payment account; a pre-existing record ends with amount
max(previous amount, shortfall) when the shortfall is positive (raised but
never lowered) and 0 otherwise; a missing record is created with the
positive shortfall and the payment account's id, and is not created when
the shortfall is not positive.  In particular the resulting amount is never
negative, but it equals max(shortfall, 0) only when no larger record
pre-existed. -/
theorem managed_account_balance_check_amounts (env : Payout.Env)
    (pa : Payout.PaymentAccount) (tid : Nat) (amount : Int) (s : Payout.St)
    (needed : Int)
    (hneeded : needed = (if pa.entity = some Payout.DASHER then amount
      else amount - env.account_balance
        (if Payout.truthyNat pa.account_id then
          s.stripe_managed_accounts.find?
            (fun a => decide (a.id = pa.account_id.getD 0))
         else none)))
    (hok : ((Payout.managed_account_balance_check env pa tid amount).run
      s).1 = .ok ()) :
    (∀ m, s.managed_account_transfers.find?
        (fun x => decide (x.transfer_id = tid)) = some m →
      (Payout.truthyNat m.payment_account_id = true →
        pa.id = m.payment_account_id.getD 0) ∧
      (((Payout.managed_account_balance_check env pa tid amount).run
          s).2.managed_account_transfers.find?
          (fun x => decide (x.transfer_id = tid))).map (fun x => x.amount) =
        some (if needed > 0 then max m.amount needed else 0)) ∧
    (s.managed_account_transfers.find?
        (fun x => decide (x.transfer_id = tid)) = none →
      (((Payout.managed_account_balance_check env pa tid amount).run
          s).2.managed_account_transfers.find?
          (fun x => decide (x.transfer_id = tid))).map
          (fun x => (x.amount, x.payment_account_id)) =
        (if needed > 0 then some (needed, some pa.id) else none)) := by
  rw [Payout.balance_check_run_eq, ← hneeded] at hok ⊢
  exact Payout.reconcile_spec env pa tid needed s hok

/-- C8, witness instance for the amended theorem: gateway balance 0,
transfer amount 50, existing record of amount 10 for the same account — the
record is raised to the shortfall 50. -/
theorem managed_account_balance_check_amounts_witness :
    (((Payout.managed_account_balance_check
        { now := 9, account_balance := fun _ => 0,
          country_shortname := some "US", currency_code := fun _ => "usd",
          create_payout_result := .ok ⟨"p", "paid", none⟩,
          create_transfer_result := .ok ⟨"t"⟩,
          failed_status_codes := fun _ => false }
        ⟨1, some 1, some "stripe_managed_account", some "merchant", true⟩
        7 50).run
      ⟨[⟨7, some 1, 50, some "usd", .new, none, none, none, some "stripe",
         none, false⟩],
       [⟨1, some 1, some "stripe_managed_account", some "merchant", true⟩],
       [⟨1, "acct"⟩], [],
       [⟨1, 7, some 1, 10, some "usd", none, none, none⟩],
       1, 2, []⟩).2.managed_account_transfers.find?
        (fun x => decide (x.transfer_id = 7))).map (fun x => x.amount) =
      some (if (50 : Int) > 0 then max 10 50 else 0) :=
  ((managed_account_balance_check_amounts
      { now := 9, account_balance := fun _ => 0,
        country_shortname := some "US", currency_code := fun _ => "usd",
        create_payout_result := .ok ⟨"p", "paid", none⟩,
        create_transfer_result := .ok ⟨"t"⟩,
        failed_status_codes := fun _ => false }
      ⟨1, some 1, some "stripe_managed_account", some "merchant", true⟩
      7 50
      ⟨[⟨7, some 1, 50, some "usd", .new, none, none, none, some "stripe",
         none, false⟩],
       [⟨1, some 1, some "stripe_managed_account", some "merchant", true⟩],
       [⟨1, "acct"⟩], [],
       [⟨1, 7, some 1, 10, some "usd", none, none, none⟩],
       1, 2, []⟩
      50 rfl rfl).1
    ⟨1, 7, some 1, 10, some "usd", none, none, none⟩ rfl).2

set_option maxRecDepth 8192 in
set_option maxRecDepth 8192 in
/-- C6, counterexample: a gateway `StripeError` carrying no error code
(`e.code = none`) whose message matches the `TRANSFER_RELATED_ERROR_MESSAGES`
pattern is re-raised as `STRIPE_PAYOUT_ACCT_MISSING` through the
message-regex fallback of `extract_failure_code_from_exception_message`
(lines 628-633), not as `STRIPE_SUBMISSION_ERROR`, contradicting the
claim's catch-all clause for gateway errors without the named codes. -/
theorem codeless_gateway_error_misclassified :
    ((Payout._submit_stripe_transfer
        { now := 9, account_balance := fun _ => 0,
          country_shortname := some "US", currency_code := fun _ => "usd",
          create_payout_result := .error (.stripeError
            ⟨some "api_error", none,
             some "Sorry, you don\x27t have any external accounts in that currency (CAD)",
             some "req_1"⟩),
          create_transfer_result := .ok ⟨"t"⟩,
          failed_status_codes := fun _ => false }
        ⟨1, 7, .submitting, "", none, none, none, none, none, none, none,
         none, none, none⟩
        ⟨1, some 1, some "stripe_managed_account", some "merchant", true⟩
        250 7 "sd" none none).run
      ⟨[⟨7, some 1, 250, some "usd", .new, none, none, none, some "stripe",
         none, false⟩],
       [⟨1, some 1, some "stripe_managed_account", some "merchant", true⟩],
       [⟨1, "acct"⟩],
       [⟨1, 7, .submitting, "", none, none, none, none, none, none, none,
         none, none, none⟩],
       [], 2, 1, []⟩).1 =
      .error (.payoutError .stripe_payout_acct_missing false
        (some "Sorry, you don\x27t have any external accounts in that currency (CAD)")) ∧
    (⟨some "api_error", none,
      some "Sorry, you don\x27t have any external accounts in that currency (CAD)",
      some "req_1"⟩ : Payout.StripeErrorDetail).code = none ∧
    Payout.extract_failure_code_from_exception_message
      (some "Sorry, you don\x27t have any external accounts in that currency (CAD)") =
      Payout.StripeErrorCode.NO_EXT_ACCOUNT_IN_CURRENCY ∧
    Payout.PayoutErrorCode.stripe_payout_acct_missing ≠
      Payout.PayoutErrorCode.stripe_submission_error :=
  ⟨rfl, rfl, rfl, by decide⟩

open Payout in

theorem gateway_error_classification (env : Env) (st0 : StripeTransfer) (pa : PaymentAccount)
    (amount : Int) (tid : Nat) (sd : String) (tt tgt : Option String)
    (s s1 : St) (e : StripeErrorDetail) (code : String)
    (sma : StripeManagedAccount) (r0 : StripeTransfer)
    (hcode : code = (if truthyStr e.code then e.code.getD ""
      else extract_failure_code_from_exception_message e.message))
    (hsid : truthyStr st0.stripe_id = false)
    (haid : truthyNat pa.account_id = true)
    (hsma : s.stripe_managed_accounts.find?
      (fun a => decide (a.id = pa.account_id.getD 0)) = some sma)
    (htype : pa.account_type = some ACCOUNT_TYPE_STRIPE_MANAGED_ACCOUNT)
    (hleg : (create_for_managed_account env amount tid pa sma.stripe_id sd
        tt tgt).run s = (.error (.stripeError e), s1))
    (hrow : s1.stripe_transfers.find? (fun r => decide (r.id = st0.id)) =
      some r0) :
    (_submit_stripe_transfer env st0 pa amount tid sd tt tgt).run s =
      (.error (.payoutError
        (if code = StripeErrorCode.NO_EXT_ACCOUNT_IN_CURRENCY then
          .stripe_payout_acct_missing
         else if code = StripeErrorCode.PAYOUT_NOT_ALLOWED then
          .stripe_payout_disallowed
         else if e.error_type = some StripeErrorCode.INVALID_REQUEST_ERROR
         then
          .stripe_invalid_request_error
         else .stripe_submission_error)
        false e.message),
       ((update_stripe_transfer_by_id st0.id
          { country_shortname := some env.country_shortname
            stripe_account_id := some sma.stripe_id
            stripe_account_type := some ACCOUNT_TYPE_STRIPE_MANAGED_ACCOUNT
            stripe_status := some STRIPE_TRANSFER_FAILED_STATUS
            stripe_request_id := some e.request_id
            submission_status := some
              (if truthyStr e.request_id then .submitted
               else .failed_to_submit)
            submission_error_type := some e.error_type
            submission_error_code := some code }).run s1).2) ∧
    (((update_stripe_transfer_by_id st0.id
          { country_shortname := some env.country_shortname
            stripe_account_id := some sma.stripe_id
            stripe_account_type := some ACCOUNT_TYPE_STRIPE_MANAGED_ACCOUNT
            stripe_status := some STRIPE_TRANSFER_FAILED_STATUS
            stripe_request_id := some e.request_id
            submission_status := some
              (if truthyStr e.request_id then .submitted
               else .failed_to_submit)
            submission_error_type := some e.error_type
            submission_error_code := some code }).run
        s1).2.stripe_transfers.find? (fun r => decide (r.id = st0.id))).map
        (fun r => (r.submission_status, r.stripe_request_id,
                   r.submission_error_code, r.submission_error_type)) =
      some ((if truthyStr e.request_id then .submitted
             else .failed_to_submit),
            e.request_id, some code, e.error_type) := by
  subst hcode
  constructor
  · unfold _submit_stripe_transfer get_stripe_account_id
    simp [PM.run_bind, PM.run_tryCatchExc, PM.run_read, PM.run_pure,
      PM.run_throw, get_stripe_managed_account_by_id,
      update_stripe_transfer_by_id, StripeTransferUpdate.apply,
      hsid, haid, hsma, htype, hleg, hrow]
    split_ifs <;> rfl
  · unfold update_stripe_transfer_by_id
    dsimp only
    rw [find?_listUpdate _ _ _
      (fun a ha => by simpa [StripeTransferUpdate.apply] using ha), hrow]
    simp [StripeTransferUpdate.apply]

/-- C6, witness: a concrete run with a positive pre-existing
managed-account transfer (amount 100) and a codeless gateway error whose
message matches no known pattern records code `unknown_error` and re-raises
`STRIPE_SUBMISSION_ERROR`. -/
theorem gateway_error_classification_witness :
    (⟨none, none, some "boom", some "req_1"⟩ :
      Payout.StripeErrorDetail).code = none ∧
    (([⟨5, 7, some 1, 100, some "usd", none, none, none⟩] :
        List Payout.ManagedAccountTransfer).find?
        (fun m => decide (m.transfer_id = 7))).map (fun m => m.amount) =
      some 100 ∧
    ((Payout._submit_stripe_transfer
        { now := 9, account_balance := fun _ => 0,
          country_shortname := some "US", currency_code := fun _ => "usd",
          create_payout_result := .error (.stripeError
            ⟨none, none, some "boom", some "req_1"⟩),
          create_transfer_result := .ok ⟨"gt1"⟩,
          failed_status_codes := fun _ => false }
        ⟨1, 7, .submitting, "", none, none, none, none, none, none, none,
         none, none, none⟩
        ⟨1, some 1, some "stripe_managed_account", some "merchant", true⟩
        250 7 "sd" none none).run
      ⟨[⟨7, some 1, 250, some "usd", .new, none, none, none, some "stripe",
         none, false⟩],
       [⟨1, some 1, some "stripe_managed_account", some "merchant", true⟩],
       [⟨1, "acct"⟩],
       [⟨1, 7, .submitting, "", none, none, none, none, none, none, none,
         none, none, none⟩],
       [⟨5, 7, some 1, 100, some "usd", none, none, none⟩], 2, 6, []⟩).1 =
      .error (.payoutError .stripe_submission_error false (some "boom")) :=
  ⟨rfl, rfl, by
    have h := gateway_error_classification
      { now := 9, account_balance := fun _ => 0,
        country_shortname := some "US", currency_code := fun _ => "usd",
        create_payout_result := .error (.stripeError
          ⟨none, none, some "boom", some "req_1"⟩),
        create_transfer_result := .ok ⟨"gt1"⟩,
        failed_status_codes := fun _ => false }
      ⟨1, 7, .submitting, "", none, none, none, none, none, none, none,
       none, none, none⟩
      ⟨1, some 1, some "stripe_managed_account", some "merchant", true⟩
      250 7 "sd" none none
      ⟨[⟨7, some 1, 250, some "usd", .new, none, none, none, some "stripe",
         none, false⟩],
       [⟨1, some 1, some "stripe_managed_account", some "merchant", true⟩],
       [⟨1, "acct"⟩],
       [⟨1, 7, .submitting, "", none, none, none, none, none, none, none,
         none, none, none⟩],
       [⟨5, 7, some 1, 100, some "usd", none, none, none⟩], 2, 6, []⟩
      ((Payout.create_for_managed_account
        { now := 9, account_balance := fun _ => 0,
          country_shortname := some "US", currency_code := fun _ => "usd",
          create_payout_result := .error (.stripeError
            ⟨none, none, some "boom", some "req_1"⟩),
          create_transfer_result := .ok ⟨"gt1"⟩,
          failed_status_codes := fun _ => false }
        250 7
        ⟨1, some 1, some "stripe_managed_account", some "merchant", true⟩
        "acct" "sd" none none).run
        ⟨[⟨7, some 1, 250, some "usd", .new, none, none, none,
           some "stripe", none, false⟩],
         [⟨1, some 1, some "stripe_managed_account", some "merchant",
           true⟩],
         [⟨1, "acct"⟩],
         [⟨1, 7, .submitting, "", none, none, none, none, none, none, none,
           none, none, none⟩],
         [⟨5, 7, some 1, 100, some "usd", none, none, none⟩], 2, 6,
         []⟩).2
      ⟨none, none, some "boom", some "req_1"⟩ "unknown_error" ⟨1, "acct"⟩
      ⟨1, 7, .submitting, "", none, none, none, none, none, none, none,
       none, none, none⟩
      rfl rfl rfl rfl rfl rfl rfl
    rw [h.1]
    rfl⟩
